import Mathlib

/-!
Verification development for the raven IMAP synchronization daemon.

The SQLite mirror is embedded as lists of typed rows (one list per table),
and the Rust store operations (src/ravend/src/db/operations.rs), the folder
sync state machine and threader (src/ravend/src/imap/worker.rs), the action
executor (src/ravend/src/imap/actions.rs) and the snippet generator
(src/rs/ravend/src/imap/parser.rs) are translated into pure Lean functions
over those lists.  IMAP network traffic is represented by oracle data (the
responses a session returns); filesystem writes are represented by explicit
operation traces.  Values that the Rust code obtains from collaborators
(decoded RFC 2047 headers, parsed MIME trees, random UUIDs, the current
time) enter the model as input data.
-/

set_option maxRecDepth 4096

namespace Raven

/-- Row of the `message` table.  The `data` JSON column is modelled
structurally (the serde round-trip is lossless on the fields the code
reads back). -/
structure MessageDataCol where
  from_c : String
  to_c : String
  cc_c : String
  bcc_c : String
  reply_to_c : String
  synced_at : Int
  snippet : String
  plaintext : Bool
  deriving Repr, DecidableEq

/-- Row of the `message` table (columns of the CREATE TABLE in
migrations.rs). -/
structure MessageRow where
  id : String
  accountId : String
  data : Option MessageDataCol
  folderId : String
  threadId : Option String
  headerMessageId : Option String
  subject : String
  draft : Bool
  unread : Bool
  starred : Bool
  date : Int
  remoteUID : Nat
  deriving Repr, DecidableEq

/-- Row of the `message_body` table. -/
structure MessageBodyRow where
  id : String
  value : String
  fetchedAt : Int
  deriving Repr, DecidableEq

/-- Row of the `thread` table (`unread` / `starred` are the i32 count
columns). -/
structure ThreadRow where
  id : String
  accountId : String
  data : Option String
  subject : String
  snippet : String
  unread : Int
  starred : Int
  firstMessageTimestamp : Int
  lastMessageTimestamp : Int
  deriving Repr, DecidableEq

/-- Row of the `thread_folder` table (the AUTOINCREMENT id is dropped:
no code path reads it). -/
structure ThreadFolderRow where
  accountId : String
  threadId : String
  folderId : String
  deriving Repr, DecidableEq

/-- Row of the `thread_reference` table;
PRIMARY KEY (threadId, accountId, headerMessageId). -/
structure ThreadReferenceRow where
  threadId : String
  accountId : String
  headerMessageId : String
  deriving Repr, DecidableEq

/-- Row of the `folder` table. -/
structure FolderRow where
  id : String
  accountId : String
  data : Option String
  path : String
  role : String
  uidValidity : Option Nat
  uidNext : Option Nat
  highestModSeq : Option Nat
  deriving Repr, DecidableEq

/-- Row of the `file` table. -/
structure FileRow where
  id : String
  accountId : String
  messageId : String
  fileName : String
  partId : String
  contentId : Option String
  contentType : String
  size : Nat
  isInline : Bool
  downloaded : Bool
  deriving Repr, DecidableEq

/-- The SQLite mirror: one list per table, in row order. -/
structure Db where
  message : List MessageRow
  message_body : List MessageBodyRow
  thread : List ThreadRow
  thread_folder : List ThreadFolderRow
  thread_reference : List ThreadReferenceRow
  folder : List FolderRow
  file : List FileRow
  deriving Repr, DecidableEq

/-- An empty database. -/
def Db.empty : Db := ⟨[], [], [], [], [], [], []⟩

/-- In-memory `Message` struct (models/message.rs): the contact lists and
snippet live outside the table columns and are serialized into the `data`
column by `upsert_message`. -/
structure Message where
  id : String
  accountId : String
  folderId : String
  threadId : Option String
  headerMessageId : Option String
  remoteUID : Nat
  subject : String
  date : Int
  draft : Bool
  unread : Bool
  starred : Bool
  from_contacts : String
  to_contacts : String
  cc_contacts : String
  bcc_contacts : String
  reply_to_contacts : String
  snippet : String
  is_plaintext : Bool
  deriving Repr, DecidableEq

/-- `Message::new` (models/message.rs): defaults for a freshly created
message; `Utc::now()` enters as the `now` argument. -/
def Message.new (id accountId folderId : String) (remoteUID : Nat) (now : Int) : Message :=
  { id := id, accountId := accountId, folderId := folderId, threadId := none,
    headerMessageId := none, remoteUID := remoteUID, subject := "", date := now,
    draft := false, unread := true, starred := false,
    from_contacts := "[]", to_contacts := "[]", cc_contacts := "[]",
    bcc_contacts := "[]", reply_to_contacts := "[]",
    snippet := "", is_plaintext := false }

/-- `Message::get_data` (models/message.rs): assemble the `data` JSON
column.  The contact strings are carried through verbatim; `synced_at` is
the current time. -/
def Message.get_data (m : Message) (now : Int) : MessageDataCol :=
  { from_c := m.from_contacts, to_c := m.to_contacts, cc_c := m.cc_contacts,
    bcc_c := m.bcc_contacts, reply_to_c := m.reply_to_contacts,
    synced_at := now, snippet := m.snippet, plaintext := m.is_plaintext }

/-! ## Store operations (db/operations.rs)

SQL semantics on the list model: `UPDATE ... WHERE k` maps the update over
the rows satisfying `k`; `DELETE ... WHERE k` filters out the rows
satisfying `k`; `INSERT ... ON CONFLICT(id) DO UPDATE` updates in place
when a row with the id exists and appends otherwise; `query_row` returns
the first matching row. -/

/-- `upsert_folder`: ON CONFLICT(id) updates only data, path, role — the
sync-state columns are NOT overwritten. -/
def upsert_folder (db : Db) (f : FolderRow) : Db :=
  if db.folder.any (fun r => r.id == f.id) then
    { db with folder := db.folder.map (fun r =>
        if r.id == f.id then
          { r with data := f.data, path := f.path, role := f.role }
        else r) }
  else
    { db with folder := db.folder ++ [f] }

/-- `get_folder_by_id`. -/
def get_folder_by_id (db : Db) (folder_id : String) : Option FolderRow :=
  db.folder.find? (fun r => r.id == folder_id)

/-- `update_folder_sync_state`: UPDATE folder SET uidValidity, uidNext,
highestModSeq WHERE id. -/
def update_folder_sync_state (db : Db) (folder_id : String)
    (uid_validity : Option Nat) (uid_next : Option Nat)
    (highest_mod_seq : Option Nat) : Db :=
  { db with folder := db.folder.map (fun r =>
      if r.id == folder_id then
        { r with uidValidity := uid_validity, uidNext := uid_next,
                 highestModSeq := highest_mod_seq }
      else r) }

/-- `upsert_message`: INSERT with all twelve columns; ON CONFLICT(id) the
DO UPDATE SET clause lists data, folderId, threadId, subject, draft,
unread, starred, date — and nothing else. -/
def upsert_message (db : Db) (m : Message) (now : Int) : Db :=
  let data := m.get_data now
  if db.message.any (fun r => r.id == m.id) then
    { db with message := db.message.map (fun r =>
        if r.id == m.id then
          { r with data := some data, folderId := m.folderId,
                   threadId := m.threadId, subject := m.subject,
                   draft := m.draft, unread := m.unread, starred := m.starred,
                   date := m.date }
        else r) }
  else
    { db with message := db.message ++
        [{ id := m.id, accountId := m.accountId, data := some data,
           folderId := m.folderId, threadId := m.threadId,
           headerMessageId := m.headerMessageId, subject := m.subject,
           draft := m.draft, unread := m.unread, starred := m.starred,
           date := m.date, remoteUID := m.remoteUID }] }

/-- `get_message_by_uid`: first row with (accountId, folderId, remoteUID);
the contact columns come back as `"[]"` and snippet / plaintext are read
out of the `data` column (empty / false when the column is NULL). -/
def get_message_by_uid (db : Db) (account_id folder_id : String)
    (remote_uid : Nat) : Option Message :=
  (db.message.find? (fun r =>
      r.accountId == account_id && r.folderId == folder_id &&
      r.remoteUID == remote_uid)).map (fun r =>
    let sp := match r.data with
      | some d => (d.snippet, d.plaintext)
      | none => ("", false)
    { id := r.id, accountId := r.accountId, folderId := r.folderId,
      threadId := r.threadId, headerMessageId := r.headerMessageId,
      remoteUID := r.remoteUID, subject := r.subject, date := r.date,
      draft := r.draft, unread := r.unread, starred := r.starred,
      from_contacts := "[]", to_contacts := "[]", cc_contacts := "[]",
      bcc_contacts := "[]", reply_to_contacts := "[]",
      snippet := sp.1, is_plaintext := sp.2 })

/-- `update_message_flags`: UPDATE message SET unread, starred, draft
WHERE (accountId, folderId, remoteUID); returns whether a row was hit. -/
def update_message_flags (db : Db) (account_id folder_id : String)
    (remote_uid : Nat) (unread starred draft : Bool) : Db × Bool :=
  let hit := db.message.any (fun r =>
    r.accountId == account_id && r.folderId == folder_id &&
    r.remoteUID == remote_uid)
  ({ db with message := db.message.map (fun r =>
      if r.accountId == account_id && r.folderId == folder_id &&
         r.remoteUID == remote_uid then
        { r with unread := unread, starred := starred, draft := draft }
      else r) }, hit)

/-- `delete_message_by_uid`: look up the message id for
(accountId, folderId, remoteUID); when found delete the message_body row,
the file rows and the message row keyed by that id, returning true. -/
def delete_message_by_uid (db : Db) (account_id folder_id : String)
    (remote_uid : Nat) : Db × Bool :=
  match db.message.find? (fun r =>
      r.accountId == account_id && r.folderId == folder_id &&
      r.remoteUID == remote_uid) with
  | some m =>
      ({ db with
         message_body := db.message_body.filter (fun b => !(b.id == m.id)),
         file := db.file.filter (fun f => !(f.messageId == m.id)),
         message := db.message.filter (fun r => !(r.id == m.id)) }, true)
  | none => (db, false)

/-- `get_folder_message_uids`: remoteUID of every message row of the
folder. -/
def get_folder_message_uids (db : Db) (account_id folder_id : String) : List Nat :=
  (db.message.filter (fun r =>
    r.accountId == account_id && r.folderId == folder_id)).map (·.remoteUID)

/-- `upsert_message_body`: ON CONFLICT(id) overwrites value and fetchedAt. -/
def upsert_message_body (db : Db) (b : MessageBodyRow) : Db :=
  if db.message_body.any (fun r => r.id == b.id) then
    { db with message_body := db.message_body.map (fun r =>
        if r.id == b.id then { r with value := b.value, fetchedAt := b.fetchedAt }
        else r) }
  else
    { db with message_body := db.message_body ++ [b] }

/-- `upsert_thread`: ON CONFLICT(id) overwrites everything except id and
accountId. -/
def upsert_thread (db : Db) (t : ThreadRow) : Db :=
  if db.thread.any (fun r => r.id == t.id) then
    { db with thread := db.thread.map (fun r =>
        if r.id == t.id then
          { r with data := t.data, subject := t.subject, snippet := t.snippet,
                   unread := t.unread, starred := t.starred,
                   firstMessageTimestamp := t.firstMessageTimestamp,
                   lastMessageTimestamp := t.lastMessageTimestamp }
        else r) }
  else
    { db with thread := db.thread ++ [t] }

/-- `get_thread_by_id`. -/
def get_thread_by_id (db : Db) (thread_id : String) : Option ThreadRow :=
  db.thread.find? (fun r => r.id == thread_id)

/-- `insert_thread_folder`: INSERT OR IGNORE, but the table's only
uniqueness constraint is the AUTOINCREMENT id, so the insert always
happens. -/
def insert_thread_folder (db : Db) (tf : ThreadFolderRow) : Db :=
  { db with thread_folder := db.thread_folder ++ [tf] }

/-- `thread_folder_exists`: COUNT(*) > 0 on the triple. -/
def thread_folder_exists (db : Db) (account_id thread_id folder_id : String) : Bool :=
  db.thread_folder.any (fun r =>
    r.accountId == account_id && r.threadId == thread_id &&
    r.folderId == folder_id)

/-- `insert_thread_reference`: INSERT OR IGNORE on the
(threadId, accountId, headerMessageId) primary key. -/
def insert_thread_reference (db : Db) (tr : ThreadReferenceRow) : Db :=
  if db.thread_reference.any (fun r =>
      r.threadId == tr.threadId && r.accountId == tr.accountId &&
      r.headerMessageId == tr.headerMessageId) then
    db
  else
    { db with thread_reference := db.thread_reference ++ [tr] }

/-- `find_thread_by_message_id`: threadId of the first thread_reference
row with (accountId, headerMessageId). -/
def find_thread_by_message_id (db : Db) (account_id header_message_id : String) :
    Option String :=
  (db.thread_reference.find? (fun r =>
    r.accountId == account_id &&
    r.headerMessageId == header_message_id)).map (·.threadId)

/-- `upsert_file`: ON CONFLICT(id) updates only `downloaded`. -/
def upsert_file (db : Db) (f : FileRow) : Db :=
  if db.file.any (fun r => r.id == f.id) then
    { db with file := db.file.map (fun r =>
        if r.id == f.id then { r with downloaded := f.downloaded } else r) }
  else
    { db with file := db.file ++ [f] }

/-- `get_trash_folder_for_account`: (id, path) of the first folder row of
the account whose role column is the literal string trash. -/
def get_trash_folder_for_account (db : Db) (account_id : String) :
    Option (String × String) :=
  (db.folder.find? (fun r =>
    r.accountId == account_id && r.role == "trash")).map (fun r => (r.id, r.path))

/-- `get_message_info_by_id`: message joined with its folder row; the
query errors (treated as a miss by both callers) when the message or its
folder is absent or when `threadId` is NULL (rusqlite cannot read NULL
into String). -/
structure MessageActionInfo where
  id : String
  account_id : String
  folder_id : String
  folder_path : String
  remote_uid : Nat
  thread_id : String
  deriving Repr, DecidableEq

def get_message_info_by_id (db : Db) (message_id : String) :
    Option MessageActionInfo :=
  match db.message.find? (fun r => r.id == message_id) with
  | none => none
  | some m =>
    match db.folder.find? (fun f => f.id == m.folderId) with
    | none => none
    | some f =>
      match m.threadId with
      | none => none
      | some tid =>
          some { id := m.id, account_id := m.accountId, folder_id := m.folderId,
                 folder_path := f.path, remote_uid := m.remoteUID,
                 thread_id := tid }

/-! ### delete_account_data

The seven `tx.execute` calls and the final `tx.commit` run inside one
rusqlite transaction.  Each of the eight steps may fail; `failAt = some i`
models a failure at the i-th step (0-based; step 7 is the commit), in
which case the transaction is rolled back and the connection keeps the
original state.  The result is the visible database plus a success flag. -/

/-- Step 0: DELETE FROM message_body WHERE id IN
(SELECT id FROM message WHERE accountId = ?1) — a correlated subquery
over the message table as it stands at this point of the transaction. -/
def deleteAccountMessageBodies (account_id : String) (db : Db) : Db :=
  { db with message_body := db.message_body.filter (fun b =>
      !(db.message.any (fun m => m.accountId == account_id && m.id == b.id))) }

/-- Steps 1-6: the per-table DELETE ... WHERE accountId statements, in
program order. -/
def deleteAccountSteps (account_id : String) : List (Db → Db) :=
  [deleteAccountMessageBodies account_id,
   fun db => { db with message := db.message.filter (fun m => !(m.accountId == account_id)) },
   fun db => { db with thread_folder := db.thread_folder.filter (fun r => !(r.accountId == account_id)) },
   fun db => { db with thread_reference := db.thread_reference.filter (fun r => !(r.accountId == account_id)) },
   fun db => { db with thread := db.thread.filter (fun r => !(r.accountId == account_id)) },
   fun db => { db with folder := db.folder.filter (fun r => !(r.accountId == account_id)) },
   fun db => { db with file := db.file.filter (fun r => !(r.accountId == account_id)) }]

/-- Transaction runner: apply the steps in order against the transaction
state; a failure at any step (or at the commit, index = number of steps)
rolls back to the original state. -/
def runTransaction (orig : Db) (failAt : Option Nat) :
    List (Db → Db) → Nat → Db → Db × Bool
  | [], i, tx => if failAt == some i then (orig, false) else (tx, true)
  | step :: rest, i, tx =>
      if failAt == some i then (orig, false)
      else runTransaction orig failAt rest (i + 1) (step tx)

/-- `delete_account_data` (operations.rs): transactional purge of one
account, ordered message_body, message, thread_folder, thread_reference,
thread, folder, file, then commit. -/
def delete_account_data (db : Db) (account_id : String) (failAt : Option Nat) :
    Db × Bool :=
  runTransaction db failAt (deleteAccountSteps account_id) 0 db

/-! ## Parser utilities (rs/ravend/src/imap/parser.rs, models/file.rs) -/

/-- Rust `char::is_control`: the Unicode Cc category,
U+0000..U+001F and U+007F..U+009F. -/
def rustIsControl (c : Char) : Bool :=
  c.toNat ≤ 0x1F || (0x7F ≤ c.toNat && c.toNat ≤ 0x9F)

/-- Rust `char::is_whitespace`: the Unicode White_Space property. -/
def rustIsWhitespace (c : Char) : Bool :=
  (0x09 ≤ c.toNat && c.toNat ≤ 0x0D) || c.toNat == 0x20 ||
  c.toNat == 0x85 || c.toNat == 0xA0 || c.toNat == 0x1680 ||
  (0x2000 ≤ c.toNat && c.toNat ≤ 0x200A) ||
  c.toNat == 0x2028 || c.toNat == 0x2029 || c.toNat == 0x202F ||
  c.toNat == 0x205F || c.toNat == 0x3000

/-- Rust `str::split_whitespace`: maximal runs of non-whitespace
characters; empty pieces never occur. -/
def splitWhitespaceAux : List Char → List Char → List (List Char)
  | [], acc => if acc.isEmpty then [] else [acc.reverse]
  | c :: rest, acc =>
      if rustIsWhitespace c then
        if acc.isEmpty then splitWhitespaceAux rest []
        else acc.reverse :: splitWhitespaceAux rest []
      else splitWhitespaceAux rest (c :: acc)

def rustSplitWhitespace (l : List Char) : List (List Char) :=
  splitWhitespaceAux l []

/-- Rust `str::rfind(' ')`: index of the last space (the byte index in
Rust; indexing the character list is equivalent because the returned
position is the start of the space character). -/
def rfindSpace (l : List Char) : Option Nat :=
  (l.reverse.findIdx? (· == ' ')).map (fun j => l.length - 1 - j)

/-- The cleaning pipeline of `generate_snippet`: drop control characters
that are not whitespace, map every whitespace character to a space, and
re-join the whitespace-split words with single spaces. -/
def snippetClean (text : String) : List Char :=
  List.intercalate [' '] (rustSplitWhitespace
    ((text.toList.filter (fun c => !(rustIsControl c) || rustIsWhitespace c)).map
      (fun c => if rustIsWhitespace c then ' ' else c)))

/-- `generate_snippet` (parser.rs): clean the text; if longer than 150
characters, truncate to 150, cut at the last space when there is one,
and append three dots. -/
def generate_snippet (text : String) : String :=
  if (snippetClean text).length ≤ 150 then String.mk (snippetClean text)
  else
    match rfindSpace ((snippetClean text).take 150) with
    | some last_space => String.mk (((snippetClean text).take 150).take last_space) ++ "..."
    | none => String.mk ((snippetClean text).take 150) ++ "..."

/-- `get_snippet_from_message` (parser.rs): the subject, truncated to 97
characters plus three dots when longer than 100 characters. -/
def get_snippet_from_message (m : Message) : String :=
  let chars := m.subject.toList
  if chars.length > 100 then String.mk (chars.take 97) ++ "..."
  else m.subject

/-- Rust `str::contains` on a literal pattern, via splitting. -/
def strContains (s pat : String) : Bool :=
  (s.splitOn pat).length > 1

/-- `replace_cid_urls` (parser.rs): textual substitution of the three
cid URL quoting forms. -/
def replace_cid_urls (html : String) (replacements : List (String × String)) :
    String :=
  replacements.foldl (fun result cr =>
    let pats := ["cid:" ++ cr.1, "\"cid:" ++ cr.1 ++ "\"", "'cid:" ++ cr.1 ++ "'"]
    pats.foldl (fun result pat =>
      if strContains result pat then
        let repl :=
          if pat.startsWith "\"" then "\"" ++ cr.2 ++ "\""
          else if pat.startsWith "'" then "'" ++ cr.2 ++ "'"
          else cr.2
        result.replace pat repl
      else result) result) html

/-- `sanitize_filename` (models/file.rs). -/
def sanitize_filename (name : String) : String :=
  let sanitized := name.toList.map (fun c =>
    if c == '/' || c == '\\' || c == ':' || c == '*' || c == '?' ||
       c == '"' || c == '<' || c == '>' || c == '|' || c.toNat == 0 then '_'
    else if rustIsControl c then '_'
    else c)
  let trimmed := String.mk
    (((sanitized.dropWhile rustIsWhitespace).reverse.dropWhile rustIsWhitespace).reverse)
  if trimmed.isEmpty then "attachment" else trimmed

/-- `Attachment::disk_filename` (models/file.rs). -/
def disk_filename (message_id filename : String) : String :=
  ((message_id.replace ":" "_").replace "/" "_") ++ "_" ++ sanitize_filename filename

/-! ## IMAP worker (imap/worker.rs)

The session is an oracle carrying the server's responses; UUIDs drawn by
the code come from an explicit supply; `Utc::now()` is the `now`
argument.  Disk writes of attachment payloads are assumed to succeed in
the database model (their failure is only logged by the code); the write
traces themselves are modelled separately for the atomicity claim. -/

/-- `decode_header`: the RFC 2047 decoder is an external crate that falls
back to the raw input on failure; the model treats header text as already
decoded, so this is the identity on the model's strings. -/
def decode_header (s : String) : String := s

/-- Supply of fresh identifiers standing for `Uuid::new_v4()`. -/
structure IdGen where
  supply : List String
  deriving Repr, DecidableEq

def IdGen.draw (g : IdGen) : String × IdGen :=
  match g.supply with
  | [] => ("fresh-id", g)
  | x :: xs => (x, ⟨xs⟩)

/-- One attachment of a parsed MIME tree (models/file.rs
ParsedAttachment); `data` is the payload byte string, present only below
the immediate-download threshold. -/
structure ParsedAttachment where
  filename : String
  content_type : String
  content_id : Option String
  part_id : String
  size : Nat
  is_inline : Bool
  data : Option (List Nat)
  deriving Repr, DecidableEq

/-- Output of `parse_message_body_full` (parser.rs); the MIME walk itself
runs in an external crate over raw bytes, so the parsed result enters the
model as session data. -/
structure ParsedMessage where
  html_body : String
  text_body : String
  snippet : String
  is_plaintext : Bool
  attachments : List ParsedAttachment
  deriving Repr, DecidableEq

def ParsedMessage.default : ParsedMessage := ⟨"", "", "", false, []⟩

/-- `ParsedAttachment::to_attachment` with the drawn UUID id. -/
def ParsedAttachment.to_attachment (p : ParsedAttachment) (id account_id message_id : String) :
    FileRow :=
  { id := id, accountId := account_id, messageId := message_id,
    fileName := p.filename, partId := p.part_id, contentId := p.content_id,
    contentType := p.content_type, size := p.size, isInline := p.is_inline,
    downloaded := false }

/-- Envelope data read by `process_message`: subject already decoded,
address lists already serialized by `serialize_addresses`. -/
structure Envelope where
  subject : Option String
  message_id : Option String
  in_reply_to : Option String
  from_addrs : String
  to_addrs : String
  cc_addrs : String
  bcc_addrs : String
  reply_to_addrs : String
  deriving Repr, DecidableEq

/-- One FETCH response. -/
structure FetchResp where
  uid : Option Nat
  flagSeen : Bool
  flagFlagged : Bool
  flagDraft : Bool
  envelope : Option Envelope
  internal_date : Option Int
  body : Option ParsedMessage
  deriving Repr, DecidableEq

/-- `extract_in_reply_to_ids`: whitespace-split of the In-Reply-To
header. -/
def extract_in_reply_to_ids (env : Envelope) : List String :=
  match env.in_reply_to with
  | some s => (rustSplitWhitespace s.toList).map String.mk
  | none => []

inductive MessageProcessResult
  | New
  | FlagsUpdated
  | Unchanged
  deriving Repr, DecidableEq

/-- `update_thread_with_message`: advance last / retreat first timestamp,
refresh the snippet on a newer message, add the message's flags to the
counts, upsert, and add the folder association when absent. -/
def update_thread_with_message (account_id : String) (db : Db)
    (thread_id : String) (message : Message) (folder : FolderRow) : Db :=
  match get_thread_by_id db thread_id with
  | none => db
  | some thread =>
    let thread :=
      if message.date > thread.lastMessageTimestamp then
        { thread with lastMessageTimestamp := message.date,
                      snippet := get_snippet_from_message message }
      else thread
    let thread :=
      if message.date < thread.firstMessageTimestamp then
        { thread with firstMessageTimestamp := message.date }
      else thread
    let thread := if message.unread then { thread with unread := thread.unread + 1 } else thread
    let thread := if message.starred then { thread with starred := thread.starred + 1 } else thread
    let db := upsert_thread db thread
    if !(thread_folder_exists db account_id thread_id folder.id) then
      insert_thread_folder db ⟨account_id, thread_id, folder.id⟩
    else db

/-- The In-Reply-To scan of `find_or_create_thread`: first registered
reply id wins. -/
def findThreadViaReplies (db : Db) (account_id : String) :
    List String → Option String
  | [] => none
  | r :: rest =>
    match find_thread_by_message_id db account_id r with
    | some tid => some tid
    | none => findThreadViaReplies db account_id rest

/-- The `data` JSON seeded into a fresh thread. -/
def threadDataJson (from_contacts folder_id : String) : String :=
  "\x7b\"participants\":" ++ from_contacts ++ ",\"folderIds\":[\"" ++
    folder_id ++ "\"]\x7d"

/-- `find_or_create_thread` (worker.rs). -/
def find_or_create_thread (account_id : String) (db : Db) (message : Message)
    (folder : FolderRow) (in_reply_to_ids : List String) (gen : IdGen) :
    String × Db × IdGen :=
  -- own Message-ID already registered (reply arrived first)?
  match message.headerMessageId.bind (find_thread_by_message_id db account_id) with
  | some tid => (tid, update_thread_with_message account_id db tid message folder, gen)
  | none =>
    match findThreadViaReplies db account_id in_reply_to_ids with
    | some tid =>
      let db := update_thread_with_message account_id db tid message folder
      let db := match message.headerMessageId with
        | some h => insert_thread_reference db ⟨tid, account_id, h⟩
        | none => db
      (tid, db, gen)
    | none =>
      let drawn := gen.draw
      let thread_id := drawn.1
      let thread : ThreadRow :=
        { id := thread_id, accountId := account_id,
          data := some (threadDataJson message.from_contacts folder.id),
          subject := message.subject,
          snippet := get_snippet_from_message message,
          unread := if message.unread then 1 else 0,
          starred := if message.starred then 1 else 0,
          firstMessageTimestamp := message.date,
          lastMessageTimestamp := message.date }
      let db := upsert_thread db thread
      let db := match message.headerMessageId with
        | some h => insert_thread_reference db ⟨thread_id, account_id, h⟩
        | none => db
      let db := in_reply_to_ids.foldl (fun db r =>
        insert_thread_reference db ⟨thread_id, account_id, r⟩) db
      let db := insert_thread_folder db ⟨account_id, thread_id, folder.id⟩
      (thread_id, db, drawn.2)

/-- `process_attachments` (worker.rs): store a file row per attachment;
when the payload is present and the spam-inline rule allows it, the
payload is written to disk (assumed to succeed), `downloaded` is set and
inline content ids are collected for cid rewriting. -/
def process_attachments (files_dir account_id message_id : String)
    (parsed_attachments : List ParsedAttachment) (is_spam_folder : Bool)
    (db : Db) (gen : IdGen) : Db × List (String × String) × IdGen :=
  let account_files_dir := files_dir ++ "/" ++ account_id
  parsed_attachments.foldl (fun st parsed =>
    let drawn := st.2.2.draw
    let attachment := parsed.to_attachment drawn.1 account_id message_id
    let should_save := !(is_spam_folder && attachment.isInline)
    let saved := should_save && parsed.data.isSome
    let attachment := if saved then { attachment with downloaded := true } else attachment
    let reps :=
      if saved then
        match attachment.contentId with
        | some cid =>
            st.2.1 ++ [(cid, "file://" ++ account_files_dir ++ "/" ++
              disk_filename message_id attachment.fileName)]
        | none => st.2.1
      else st.2.1
    (upsert_file st.1 attachment, reps, drawn.2))
    (db, ([], gen))

/-- `process_message` (worker.rs).  The notification batch is an external
collaborator and carries no database effect, so it is not modelled. -/
def process_message (files_dir account_id : String) (db : Db)
    (folder : FolderRow) (fetch : FetchResp) (now : Int) (gen : IdGen) :
    Except String (Db × MessageProcessResult × IdGen) :=
  match fetch.uid with
  | none => .error "Message has no UID"
  | some uid =>
    let is_seen := fetch.flagSeen
    let is_flagged := fetch.flagFlagged
    let is_draft := fetch.flagDraft
    match get_message_by_uid db account_id folder.id uid with
    | some existing =>
      let server_unread := !is_seen
      let server_starred := is_flagged
      let server_draft := is_draft
      if existing.unread != server_unread || existing.starred != server_starred ||
         existing.draft != server_draft then
        .ok ((update_message_flags db account_id folder.id uid
                server_unread server_starred server_draft).1,
             .FlagsUpdated, gen)
      else
        .ok (db, .Unchanged, gen)
    | none =>
      match fetch.envelope with
      | none => .error "Message has no envelope"
      | some env =>
        let header_message_id := env.message_id
        let message_id := account_id ++ ":" ++ folder.id ++ ":" ++ toString uid
        let message := Message.new message_id account_id folder.id uid now
        let message := { message with
          subject := (env.subject.map decode_header).getD "" }
        let message := match fetch.internal_date with
          | some d => { message with date := d }
          | none => message
        let message := { message with
          headerMessageId := header_message_id,
          unread := !is_seen, starred := is_flagged, draft := is_draft,
          from_contacts := env.from_addrs, to_contacts := env.to_addrs,
          cc_contacts := env.cc_addrs, bcc_contacts := env.bcc_addrs,
          reply_to_contacts := env.reply_to_addrs }
        let parsed := fetch.body.getD ParsedMessage.default
        let message := { message with
          snippet := parsed.snippet, is_plaintext := parsed.is_plaintext }
        let in_reply_to_ids := extract_in_reply_to_ids env
        let foct := find_or_create_thread account_id db message folder in_reply_to_ids gen
        let thread_id := foct.1
        let db := foct.2.1
        let gen := foct.2.2
        let message := { message with threadId := some thread_id }
        let db := upsert_message db message now
        let is_spam_folder := folder.role == "spam"
        let patt := process_attachments files_dir account_id message_id
          parsed.attachments is_spam_folder db gen
        let db := patt.1
        let cid_replacements := patt.2.1
        let gen := patt.2.2
        let body_content :=
          if !parsed.html_body.isEmpty then
            if !cid_replacements.isEmpty then
              replace_cid_urls parsed.html_body cid_replacements
            else parsed.html_body
          else parsed.text_body
        let db :=
          if !body_content.isEmpty then
            upsert_message_body db ⟨message_id, body_content, now⟩
          else db
        .ok (db, .New, gen)

/-! ### Folder sync state machine -/

inductive SyncMode
  | Full
  | Incremental
  deriving Repr, DecidableEq

/-- Stored sync state of a folder. -/
structure StoredFolderState where
  uid_validity : Option Nat
  uid_next : Option Nat
  deriving Repr, DecidableEq

/-- Server state from the SELECT response. -/
structure FolderState where
  exists_ : Nat
  uid_validity : Option Nat
  uid_next : Option Nat
  deriving Repr, DecidableEq

/-- Per-cycle counters. -/
structure FolderSyncResult where
  new_messages : Nat
  deleted_messages : Nat
  flag_updates : Nat
  deriving Repr, DecidableEq

/-- A folder sync session oracle: the responses the server returns for
this folder during one pass.  The SELECT response is stable across the
pass (the code selects the folder again inside the full sync). -/
structure Session where
  selectResp : Except String FolderState
  fetchResp : Except String (List FetchResp)
  uidFetchResp : Except String (List FetchResp)
  uidSearchResp : Except String (List Nat)
  deriving Repr

/-- `uid_validity_changed`: both sides report UIDVALIDITY and the values
differ. -/
def uid_validity_changed (stored : StoredFolderState) (server : FolderState) : Bool :=
  match stored.uid_validity, server.uid_validity with
  | some stored_val, some server_val => stored_val != server_val
  | _, _ => false

/-- `determine_sync_mode` (worker.rs:623). -/
def determine_sync_mode (stored : StoredFolderState) (server : FolderState) : SyncMode :=
  if uid_validity_changed stored server then .Full
  else if stored.uid_next.isNone then .Full
  else .Incremental

/-- `clear_folder_messages` (worker.rs:647): delete the folder's
message_body rows (subquery over message) then its message rows. -/
def clear_folder_messages (db : Db) (folder_id : String) : Db :=
  let db := { db with message_body := db.message_body.filter (fun b =>
    !(db.message.any (fun m => m.folderId == folder_id && m.id == b.id))) }
  { db with message := db.message.filter (fun m => !(m.folderId == folder_id)) }

/-- `load_folder_sync_state`. -/
def load_folder_sync_state (db : Db) (folder_id : String) : StoredFolderState :=
  let folder := get_folder_by_id db folder_id
  { uid_validity := folder.bind (·.uidValidity),
    uid_next := folder.bind (·.uidNext) }

/-- `save_folder_sync_state`: persist the server SELECT values,
HIGHESTMODSEQ written as null. -/
def save_folder_sync_state (db : Db) (folder_id : String) (state : FolderState) : Db :=
  update_folder_sync_state db folder_id state.uid_validity state.uid_next none

/-- `delete_removed_messages` (worker.rs:659): UID SEARCH ALL, then
delete every locally stored UID absent from the result; a failed search
deletes nothing. -/
def deleteRemovedLoop (account_id folder_id : String) (server_uids : List Nat) :
    List Nat → Db → Db × Nat
  | [], db => (db, 0)
  | local_uid :: rest, db =>
    if server_uids.contains local_uid then
      deleteRemovedLoop account_id folder_id server_uids rest db
    else
      let del := delete_message_by_uid db account_id folder_id local_uid
      let r := deleteRemovedLoop account_id folder_id server_uids rest del.1
      (r.1, if del.2 then r.2 + 1 else r.2)

def delete_removed_messages (account_id : String) (db : Db) (folder : FolderRow)
    (searchResp : Except String (List Nat)) : Db × Nat :=
  match searchResp with
  | .error _ => (db, 0)
  | .ok server_uids =>
    let local_uids := get_folder_message_uids db account_id folder.id
    deleteRemovedLoop account_id folder.id server_uids local_uids db

/-- The MAX_MESSAGES_PER_BATCH constant. -/
def MAX_MESSAGES_PER_BATCH : Nat := 100

/-- The fetch-processing loop shared by full sync: errors from
`process_message` are logged and the loop continues. -/
def processMessagesLoop (files_dir account_id : String) (folder : FolderRow)
    (now : Int) : List FetchResp → Db → IdGen → Db × Nat × Nat × IdGen
  | [], db, gen => (db, 0, 0, gen)
  | msg :: rest, db, gen =>
    match process_message files_dir account_id db folder msg now gen with
    | .ok (db1, res, gen1) =>
      let r := processMessagesLoop files_dir account_id folder now rest db1 gen1
      (r.1, (if res == .New then r.2.1 + 1 else r.2.1),
       (if res == .FlagsUpdated then r.2.2.1 + 1 else r.2.2.1), r.2.2.2)
    | .error _ => processMessagesLoop files_dir account_id folder now rest db gen

/-- `sync_folder_full` (worker.rs:495): fetch the last
MAX_MESSAGES_PER_BATCH messages and process them.  The computed sequence
range only selects which responses the server returns, which the session
oracle already fixes. -/
def sync_folder_full (files_dir account_id : String) (db : Db)
    (folder : FolderRow) (sess : Session) (now : Int) (gen : IdGen) :
    Except String (Db × FolderSyncResult × IdGen) :=
  match sess.selectResp with
  | .error e => .error e
  | .ok _ =>
    match sess.fetchResp with
    | .error e => .error e
    | .ok messages =>
      let r := processMessagesLoop files_dir account_id folder now messages db gen
      .ok (r.1, ⟨r.2.1, 0, r.2.2.1⟩, r.2.2.2)

/-- The incremental processing loop, skipping responses whose UID is
below the stored UIDNEXT. -/
def incrementalLoop (files_dir account_id : String) (folder : FolderRow)
    (uid_next : Nat) (now : Int) : List FetchResp → Db → IdGen → Db × Nat × Nat × IdGen
  | [], db, gen => (db, 0, 0, gen)
  | msg :: rest, db, gen =>
    if (match msg.uid with
        | some uid => decide (uid < uid_next)
        | none => false) then
      incrementalLoop files_dir account_id folder uid_next now rest db gen
    else
      match process_message files_dir account_id db folder msg now gen with
      | .ok (db1, res, gen1) =>
        let r := incrementalLoop files_dir account_id folder uid_next now rest db1 gen1
        (r.1, (if res == .New then r.2.1 + 1 else r.2.1),
         (if res == .FlagsUpdated then r.2.2.1 + 1 else r.2.2.1), r.2.2.2)
      | .error _ => incrementalLoop files_dir account_id folder uid_next now rest db gen

/-- `sync_folder_incremental` (worker.rs:536): UID FETCH from the stored
UIDNEXT; a missing stored UIDNEXT falls back to full sync; a fetch error
is treated as zero new messages. -/
def sync_folder_incremental (files_dir account_id : String) (db : Db)
    (folder : FolderRow) (stored_uid_next : Option Nat) (sess : Session)
    (now : Int) (gen : IdGen) : Except String (Db × FolderSyncResult × IdGen) :=
  match stored_uid_next with
  | none => sync_folder_full files_dir account_id db folder sess now gen
  | some uid_next =>
    match sess.uidFetchResp with
    | .error _ => .ok (db, ⟨0, 0, 0⟩, gen)
    | .ok messages =>
      let r := incrementalLoop files_dir account_id folder uid_next now messages db gen
      .ok (r.1, ⟨r.2.1, 0, r.2.2.1⟩, r.2.2.2)

/-- The tail of `sync_folder_messages` after the UIDVALIDITY reset: the
empty-folder short cut, the mode-directed fetch, deletion reconciliation
and the sync-cursor write. -/
def sync_after_reset (files_dir account_id : String) (db : Db)
    (folder : FolderRow) (stored : StoredFolderState) (server : FolderState)
    (sess : Session) (now : Int) (gen : IdGen) : Except String Db :=
  let sync_mode := determine_sync_mode stored server
  if server.exists_ == 0 then
    let dr := delete_removed_messages account_id db folder sess.uidSearchResp
    .ok (save_folder_sync_state dr.1 folder.id server)
  else
    match (match sync_mode with
           | .Full => sync_folder_full files_dir account_id db folder sess now gen
           | .Incremental =>
               sync_folder_incremental files_dir account_id db folder
                 stored.uid_next sess now gen) with
    | .error e => .error e
    | .ok (db, _result, _gen) =>
      let dr := delete_removed_messages account_id db folder sess.uidSearchResp
      .ok (save_folder_sync_state dr.1 folder.id server)

/-- `sync_folder_messages` (worker.rs:422): load stored state, SELECT,
decide the mode, clear local rows on a UIDVALIDITY change, then run the
rest of the pass. -/
def sync_folder_messages (files_dir account_id : String) (db : Db)
    (folder : FolderRow) (sess : Session) (now : Int) (gen : IdGen) :
    Except String Db :=
  let stored := load_folder_sync_state db folder.id
  match sess.selectResp with
  | .error e => .error e
  | .ok server =>
    let db :=
      if uid_validity_changed stored server then
        clear_folder_messages db folder.id
      else db
    sync_after_reset files_dir account_id db folder stored server sess now gen

/-! ## Action executor (imap/actions.rs)

IMAP traffic of the action session is recorded as a command trace; the
environment oracle fixes each command's outcome, the connect outcome and
the MOVE capability per account.  HashMap iteration order is linearized
to first-insertion order. -/

inductive ImapCmd
  | select (path : String)
  | uidMove (uid : Nat) (dest : String)
  | uidCopy (uid : Nat) (dest : String)
  | uidStore (uid : Nat) (flags : String)
  | expunge
  | logout
  deriving Repr, DecidableEq

structure ImapEnv where
  connectErr : String → Option String
  hasMove : String → Bool
  cmdOk : ImapCmd → Bool

structure ActionResult where
  succeeded : List String
  failed : List (String × String)
  deriving Repr, DecidableEq

def ActionResult.new : ActionResult := ⟨[], []⟩

def ActionResult.add_success (r : ActionResult) (message_id : String) : ActionResult :=
  { r with succeeded := r.succeeded ++ [message_id] }

def ActionResult.add_failure (r : ActionResult) (message_id error : String) : ActionResult :=
  { r with failed := r.failed ++ [(message_id, error)] }

/-- Association-list update mirroring
`map.entry(k).or_default().push(v)`. -/
def assocPush {α : Type} (l : List (String × List α)) (k : String) (v : α) :
    List (String × List α) :=
  if l.any (fun p => p.1 == k) then
    l.map (fun p => if p.1 == k then (p.1, p.2 ++ [v]) else p)
  else l ++ [(k, [v])]

def lookupAssoc {α : Type} (l : List (String × α)) (k : String) : Option α :=
  (l.find? (fun p => p.1 == k)).map (·.2)

/-- Resolution phase of `move_to_trash`: group resolvable ids by account
and cache each account's trash folder on first sight; unresolvable ids
are silently dropped. -/
def resolveTrashInputs (db : Db) (message_ids : List String) :
    List (String × List MessageActionInfo) × List (String × String × String) :=
  message_ids.foldl (fun st id =>
    match get_message_info_by_id db id with
    | some info =>
      let trash_map :=
        if (lookupAssoc st.2 info.account_id).isNone then
          match get_trash_folder_for_account db info.account_id with
          | some tp => st.2 ++ [(info.account_id, tp)]
          | none => st.2
        else st.2
      (assocPush st.1 info.account_id info, trash_map)
    | none => st) ([], [])

/-- In-trash messages become immediate successes; the rest are grouped by
source folder. -/
def groupNonTrash (trash_path : String) (messages : List MessageActionInfo)
    (result : ActionResult) :
    List (String × List MessageActionInfo) × ActionResult :=
  messages.foldl (fun st msg =>
    if msg.folder_path == trash_path then
      (st.1, st.2.add_success msg.id)
    else (assocPush st.1 msg.folder_path msg, st.2)) ([], result)

/-- Commands issued for one message: UID MOVE under the MOVE capability,
else UID COPY, then UID STORE +FLAGS Deleted, then EXPUNGE, stopping at
the first failure.  Returns the issued commands and overall success. -/
def moveCmdsFor (env : ImapEnv) (has_move : Bool) (uid : Nat)
    (trash_path : String) : List ImapCmd × Bool :=
  if has_move then
    let c := ImapCmd.uidMove uid trash_path
    ([c], env.cmdOk c)
  else
    let c1 := ImapCmd.uidCopy uid trash_path
    if env.cmdOk c1 then
      let c2 := ImapCmd.uidStore uid "+FLAGS (\\Deleted)"
      if env.cmdOk c2 then
        let c3 := ImapCmd.expunge
        ([c1, c2, c3], env.cmdOk c3)
      else ([c1, c2], false)
    else ([c1], false)

/-- Per-message loop inside one selected folder: on IMAP success delete
the local row (body and files cascade) and record a success. -/
def trashMsgLoop (env : ImapEnv) (has_move : Bool) (trash_path : String) :
    List MessageActionInfo → Db × ActionResult × List ImapCmd →
    Db × ActionResult × List ImapCmd
  | [], st => st
  | msg :: rest, (db, result, trace) =>
    let mc := moveCmdsFor env has_move msg.remote_uid trash_path
    let trace := trace ++ mc.1
    if mc.2 then
      let db := (delete_message_by_uid db msg.account_id msg.folder_id msg.remote_uid).1
      trashMsgLoop env has_move trash_path rest (db, result.add_success msg.id, trace)
    else
      trashMsgLoop env has_move trash_path rest
        (db, result.add_failure msg.id "IMAP move failed", trace)

/-- Per-folder loop: SELECT the source folder, failing every message of a
folder whose SELECT fails. -/
def trashFolderLoop (env : ImapEnv) (has_move : Bool) (trash_path : String) :
    List (String × List MessageActionInfo) → Db × ActionResult × List ImapCmd →
    Db × ActionResult × List ImapCmd
  | [], st => st
  | (folder_path, folder_messages) :: rest, (db, result, trace) =>
    let sel := ImapCmd.select folder_path
    let trace := trace ++ [sel]
    if env.cmdOk sel then
      trashFolderLoop env has_move trash_path rest
        (trashMsgLoop env has_move trash_path folder_messages (db, result, trace))
    else
      let result := folder_messages.foldl
        (fun r m => r.add_failure m.id "Failed to select folder") result
      trashFolderLoop env has_move trash_path rest (db, result, trace)

/-- Per-account step of `move_to_trash`. -/
def trashAccountStep (env : ImapEnv) (accounts : List String)
    (trash_map : List (String × String × String))
    (st : Db × ActionResult × List ImapCmd)
    (entry : String × List MessageActionInfo) :
    Db × ActionResult × List ImapCmd :=
  let account_id := entry.1
  let messages := entry.2
  let db := st.1
  let result := st.2.1
  let trace := st.2.2
  if !(accounts.contains account_id) then
    (db, messages.foldl (fun r m => r.add_failure m.id "Account not found") result, trace)
  else
    match lookupAssoc trash_map account_id with
    | none =>
      (db, messages.foldl (fun r m => r.add_failure m.id "Trash folder not found") result, trace)
    | some tp =>
      let trash_path := tp.2
      let gp := groupNonTrash trash_path messages result
      let by_folder := gp.1
      let result := gp.2
      if by_folder.isEmpty then (db, result, trace)
      else
        match env.connectErr account_id with
        | some e =>
          (db, messages.foldl (fun r m =>
             if r.succeeded.contains m.id then r else r.add_failure m.id e) result,
           trace)
        | none =>
          let r := trashFolderLoop env (env.hasMove account_id) trash_path
            by_folder (db, result, trace)
          (r.1, r.2.1, r.2.2 ++ [ImapCmd.logout])

/-- `move_to_trash` (actions.rs:284). -/
def move_to_trash (env : ImapEnv) (accounts : List String) (db : Db)
    (message_ids : List String) : Db × ActionResult × List ImapCmd :=
  if message_ids.isEmpty then (db, ActionResult.new, [])
  else
    let rp := resolveTrashInputs db message_ids
    rp.1.foldl (trashAccountStep env accounts rp.2) (db, ActionResult.new, [])

/-! ## Attachment write traces -/

/-- Filesystem operations a write path performs, in order. -/
inductive FsOp
  | createDirAll (path : String)
  | create (path : String)
  | writeAll (path : String) (data : List Nat)
  | syncAll (path : String)
  | rename (src : String) (dst : String)
  deriving Repr, DecidableEq

/-- `save_attachment_to_disk` (worker.rs:956): skip when the file exists,
otherwise create a dot-prefixed temp file, write, fsync, rename.  Returns
the trace and the final path. -/
def save_attachment_to_disk (attachment : FileRow) (data : List Nat)
    (account_dir : String) (file_exists : Bool) : List FsOp × String :=
  let filename := disk_filename attachment.messageId attachment.fileName
  let file_path := account_dir ++ "/" ++ filename
  if file_exists then ([], file_path)
  else
    let temp_path := account_dir ++ "/." ++ filename ++ ".tmp"
    ([FsOp.create temp_path, FsOp.writeAll temp_path data,
      FsOp.syncAll temp_path, FsOp.rename temp_path file_path], file_path)

/-- The disk-writing tail of `fetch_attachment_from_imap`
(actions.rs:500): create the directory, then create the final file and
write the decoded bytes into it directly. -/
def fetch_attachment_write (files_dir : String) (file : FileRow)
    (decoded_data : List Nat) : List FsOp × String :=
  let fdir := files_dir ++ "/" ++ file.accountId
  let file_path := fdir ++ "/" ++ disk_filename file.messageId file.fileName
  ([FsOp.createDirAll fdir, FsOp.create file_path,
    FsOp.writeAll file_path decoded_data], file_path)

/-- The trace with directory creation removed (creating a directory never
exposes file content). -/
def nonDirOps (ops : List FsOp) : List FsOp :=
  ops.filter (fun op => match op with
              | FsOp.createDirAll _ => false
              | _ => true)

/-- An atomic write trace for a final path, as the claim words it:
either nothing is written, or the bytes are first written completely to
a dot-prefixed tmp file, fsynced, and then renamed to the final name —
so the final name is never bound to partial content. -/
def IsAtomicWriteTrace (final : String) (ops : List FsOp) : Prop :=
  nonDirOps ops = [] ∨
  ∃ dir name data, final = dir ++ "/" ++ name ∧
    nonDirOps ops =
      [FsOp.create (dir ++ "/." ++ name ++ ".tmp"),
       FsOp.writeAll (dir ++ "/." ++ name ++ ".tmp") data,
       FsOp.syncAll (dir ++ "/." ++ name ++ ".tmp"),
       FsOp.rename (dir ++ "/." ++ name ++ ".tmp") final] ∧
    dir ++ "/." ++ name ++ ".tmp" ≠ final

/-! ## Claim C6 -/

/-- A stored message row used to exercise the conflict branch of
`upsert_message`. -/
def c6_row : MessageRow :=
  { id := "acct:acct:INBOX:5", accountId := "acct", data := none,
    folderId := "acct:INBOX", threadId := none,
    headerMessageId := some "old-header", subject := "old subject",
    draft := false, unread := false, starred := false, date := 10,
    remoteUID := 5 }

/-- An incoming message with the same row id but different
headerMessageId and remoteUID. -/
def c6_msg : Message :=
  { id := "acct:acct:INBOX:5", accountId := "acct",
    folderId := "acct:INBOX2", threadId := some "t1",
    headerMessageId := some "new-header", remoteUID := 6,
    subject := "new subject", date := 20, draft := true, unread := true,
    starred := true, from_contacts := "[]", to_contacts := "[]",
    cc_contacts := "[]", bcc_contacts := "[]", reply_to_contacts := "[]",
    snippet := "s", is_plaintext := true }

/-- C6 counterexample: upserting a message onto an existing row id leaves
the stored `headerMessageId` and `remoteUID` untouched, although the new
message carries different values — the ON CONFLICT SET clause does not
list those columns, contradicting the claim that every column except id
and accountId is overwritten. -/
theorem upsert_message_keeps_header_and_uid :
    ((upsert_message { Db.empty with message := [c6_row] } c6_msg 0).message.map
      (fun r => (r.headerMessageId, r.remoteUID))) = [(some "old-header", 5)] ∧
    c6_msg.headerMessageId = some "new-header" ∧ c6_msg.remoteUID = 6 := by
  refine ⟨?_, rfl, rfl⟩
  rfl

/-- C6 amended: on an id conflict, `upsert_message` overwrites data,
folderId, threadId, subject, draft, unread, starred and date of the
conflicting row, and leaves id, accountId, headerMessageId and remoteUID
unchanged; all other tables are untouched. -/
theorem upsert_message_conflict_frame (db : Db) (m : Message) (now : Int)
    (r : MessageRow) (hmem : r ∈ db.message) (hid : r.id = m.id) :
    (∀ r0 ∈ db.message, r0.id = m.id →
      ({ r0 with data := some (m.get_data now), folderId := m.folderId,
                 threadId := m.threadId, subject := m.subject,
                 draft := m.draft, unread := m.unread, starred := m.starred,
                 date := m.date } : MessageRow) ∈ (upsert_message db m now).message) ∧
    (∀ r0 ∈ db.message, r0.id ≠ m.id → r0 ∈ (upsert_message db m now).message) ∧
    (upsert_message db m now).message_body = db.message_body ∧
    (upsert_message db m now).thread = db.thread ∧
    (upsert_message db m now).thread_folder = db.thread_folder ∧
    (upsert_message db m now).thread_reference = db.thread_reference ∧
    (upsert_message db m now).folder = db.folder ∧
    (upsert_message db m now).file = db.file := by
  have hconf : db.message.any (fun r0 => r0.id == m.id) = true := by
    refine List.any_eq_true.mpr ⟨r, hmem, ?_⟩
    simp [hid]
  unfold upsert_message
  simp only [hconf, if_true]
  refine ⟨?_, ?_, by trivial, by trivial, by trivial, by trivial, by trivial, by trivial⟩
  · intro r0 h0 h0id
    have := List.mem_map_of_mem
      (f := fun r1 => if r1.id == m.id then
        ({ r1 with data := some (m.get_data now), folderId := m.folderId,
                   threadId := m.threadId, subject := m.subject,
                   draft := m.draft, unread := m.unread, starred := m.starred,
                   date := m.date } : MessageRow) else r1) h0
    simpa [h0id] using this
  · intro r0 h0 h0id
    have := List.mem_map_of_mem
      (f := fun r1 => if r1.id == m.id then
        ({ r1 with data := some (m.get_data now), folderId := m.folderId,
                   threadId := m.threadId, subject := m.subject,
                   draft := m.draft, unread := m.unread, starred := m.starred,
                   date := m.date } : MessageRow) else r1) h0
    simpa [h0id] using this

/-- C6 amended witness at a concrete database. -/
theorem upsert_message_conflict_frame_witness :
    ({ c6_row with
       data := some (c6_msg.get_data 0), folderId := c6_msg.folderId,
       threadId := c6_msg.threadId, subject := c6_msg.subject,
       draft := c6_msg.draft, unread := c6_msg.unread, starred := c6_msg.starred,
       date := c6_msg.date } : MessageRow) ∈
      (upsert_message { Db.empty with message := [c6_row] } c6_msg 0).message := by
  exact (upsert_message_conflict_frame { Db.empty with message := [c6_row] }
    c6_msg 0 c6_row (by simp) rfl).1 c6_row (by simp) rfl

/-! ## Claim C5 -/

/-- C5: `delete_account_data` runs its deletions inside one transaction in
the order message_body (via the correlated subquery over the account's
messages, evaluated before the message rows are removed), message,
thread_folder, thread_reference, thread, folder, file, then commits: on a
clean run it reports success and the result keeps exactly the rows not
owned by the account (a message_body row is removed exactly when its id is
the id of one of the account's message rows); a failure at any of the
eight steps up to and including the commit leaves the database
unchanged. -/
theorem delete_account_data_spec (db : Db) (account_id : String) :
    ((delete_account_data db account_id none).2 = true ∧
     (delete_account_data db account_id none).1.message_body =
       db.message_body.filter (fun b =>
         !(db.message.any (fun m => m.accountId == account_id && m.id == b.id))) ∧
     (delete_account_data db account_id none).1.message =
       db.message.filter (fun m => !(m.accountId == account_id)) ∧
     (delete_account_data db account_id none).1.thread_folder =
       db.thread_folder.filter (fun r => !(r.accountId == account_id)) ∧
     (delete_account_data db account_id none).1.thread_reference =
       db.thread_reference.filter (fun r => !(r.accountId == account_id)) ∧
     (delete_account_data db account_id none).1.thread =
       db.thread.filter (fun r => !(r.accountId == account_id)) ∧
     (delete_account_data db account_id none).1.folder =
       db.folder.filter (fun r => !(r.accountId == account_id)) ∧
     (delete_account_data db account_id none).1.file =
       db.file.filter (fun r => !(r.accountId == account_id))) ∧
    ∀ failAt : Fin 8, delete_account_data db account_id (some failAt.val) = (db, false) := by
  constructor
  · refine ⟨rfl, ?_, rfl, rfl, rfl, rfl, rfl, rfl⟩
    rfl
  · intro failAt
    fin_cases failAt <;> rfl

/-! ## Claim C7 -/

/-- A concrete attachment record for the fetch-path counterexample. -/
def c7_file : FileRow :=
  { id := "f1", accountId := "acct", messageId := "acct:acct:INBOX:7",
    fileName := "photo.png", partId := "2", contentId := none,
    contentType := "image/png", size := 3, isInline := false,
    downloaded := false }

/-- C7 counterexample: the on-demand attachment fetch path
(`fetch_attachment_from_imap`) creates the file under its final name and
writes into it directly — no tmp file, no fsync, no rename — so its
write trace is not atomic, contradicting the claim that both paths use
the tmp + fsync + rename policy. -/
theorem fetch_attachment_write_not_atomic :
    ¬ IsAtomicWriteTrace (fetch_attachment_write "files" c7_file [1, 2, 3]).2
        (fetch_attachment_write "files" c7_file [1, 2, 3]).1 := by
  intro h
  rcases h with h | ⟨dir, name, data, _, hops, _⟩
  · exact absurd h (by decide)
  · have hlen := congrArg List.length hops
    simp [nonDirOps, fetch_attachment_write] at hlen

/-- C7 amended: the sync-time save path (`save_attachment_to_disk`) is
atomic — when the file does not already exist the bytes go to a
dot-prefixed `.{name}.tmp` file which is written, fsynced and renamed to
the final name, and when it exists nothing is written; the on-demand
fetch path instead creates the final file directly and writes the
decoded bytes into it in place. -/
theorem attachment_write_traces (attachment : FileRow) (data : List Nat)
    (account_dir : String) (file_exists : Bool) (files_dir : String)
    (file : FileRow) (decoded : List Nat) :
    IsAtomicWriteTrace (save_attachment_to_disk attachment data account_dir file_exists).2
      (save_attachment_to_disk attachment data account_dir file_exists).1 ∧
    (fetch_attachment_write files_dir file decoded).1 =
      [FsOp.createDirAll (files_dir ++ "/" ++ file.accountId),
       FsOp.create ((fetch_attachment_write files_dir file decoded).2),
       FsOp.writeAll ((fetch_attachment_write files_dir file decoded).2) decoded] := by
  constructor
  · unfold save_attachment_to_disk
    by_cases hex : file_exists
    · left
      simp [hex, nonDirOps]
    · right
      refine ⟨account_dir,
        disk_filename attachment.messageId attachment.fileName, data, ?_, ?_, ?_⟩
      · simp [hex]
      · simp [hex, nonDirOps]
      · rw [if_neg hex]
        intro h
        have hlen := congrArg String.length h
        have h2 : ("/.").length = 2 := rfl
        have h4 : (".tmp").length = 4 := rfl
        have h1 : ("/").length = 1 := rfl
        simp only [String.length_append, h2, h4, h1] at hlen
        omega
  · rfl

/-! ## Claim C1 -/

/-- C1: the sync mode is Full exactly when both sides report a
UIDVALIDITY and the values differ, or the stored uid_next is absent —
otherwise it is Incremental; and on a UIDVALIDITY change the folder's
message rows and their body rows are cleared, with the rest of the pass
(including all fetch processing) running on the cleared database. -/
theorem determine_sync_mode_spec (files_dir account_id : String) (db : Db)
    (folder : FolderRow) (sess : Session) (now : Int) (gen : IdGen)
    (stored : StoredFolderState) (server : FolderState) :
    (determine_sync_mode stored server = SyncMode.Full ↔
      ((∃ sv v, stored.uid_validity = some sv ∧ server.uid_validity = some v ∧ sv ≠ v) ∨
       stored.uid_next = none)) ∧
    (∀ m ∈ (clear_folder_messages db folder.id).message, m.folderId ≠ folder.id) ∧
    (∀ b ∈ (clear_folder_messages db folder.id).message_body,
       ∀ m ∈ db.message, m.folderId = folder.id → b.id ≠ m.id) ∧
    (sess.selectResp = .ok server →
     uid_validity_changed (load_folder_sync_state db folder.id) server = true →
     sync_folder_messages files_dir account_id db folder sess now gen =
       sync_after_reset files_dir account_id (clear_folder_messages db folder.id)
         folder (load_folder_sync_state db folder.id) server sess now gen) := by
  refine ⟨?_, ?_, ?_, ?_⟩
  · obtain ⟨svv, svn⟩ := stored
    obtain ⟨sex, srv, srn⟩ := server
    rcases svv with _ | sv <;> rcases srv with _ | v <;> rcases svn with _ | n <;>
      simp [determine_sync_mode, uid_validity_changed, bne_iff_ne]
  · intro m hm
    unfold clear_folder_messages at hm
    simp only [List.mem_filter] at hm
    intro hfid
    simp [hfid] at hm
  · intro b hb m hm hfid
    unfold clear_folder_messages at hb
    simp only [List.mem_filter, Bool.not_eq_eq_eq_not, Bool.not_true,
      List.any_eq_false] at hb
    intro hid
    have := hb.2 m hm
    simp [hfid, hid] at this
  · intro hsel hchanged
    unfold sync_folder_messages
    rw [hsel]
    simp [hchanged]

/-- C1 witness: a UIDVALIDITY change on a concrete folder. -/
theorem determine_sync_mode_spec_witness :
    sync_folder_messages "files" "acct"
      { Db.empty with
        folder := [{ id := "acct:INBOX", accountId := "acct", data := none,
                     path := "INBOX", role := "inbox", uidValidity := some 7,
                     uidNext := some 15, highestModSeq := none }] }
      { id := "acct:INBOX", accountId := "acct", data := none, path := "INBOX",
        role := "inbox", uidValidity := none, uidNext := none, highestModSeq := none }
      { selectResp := .ok ⟨2, some 9, some 3⟩, fetchResp := .ok [],
        uidFetchResp := .ok [], uidSearchResp := .ok [] } 0 ⟨[]⟩ =
    sync_after_reset "files" "acct"
      (clear_folder_messages
        { Db.empty with
          folder := [{ id := "acct:INBOX", accountId := "acct", data := none,
                       path := "INBOX", role := "inbox", uidValidity := some 7,
                       uidNext := some 15, highestModSeq := none }] } "acct:INBOX")
      { id := "acct:INBOX", accountId := "acct", data := none, path := "INBOX",
        role := "inbox", uidValidity := none, uidNext := none, highestModSeq := none }
      (load_folder_sync_state
        { Db.empty with
          folder := [{ id := "acct:INBOX", accountId := "acct", data := none,
                       path := "INBOX", role := "inbox", uidValidity := some 7,
                       uidNext := some 15, highestModSeq := none }] } "acct:INBOX")
      ⟨2, some 9, some 3⟩
      { selectResp := .ok ⟨2, some 9, some 3⟩, fetchResp := .ok [],
        uidFetchResp := .ok [], uidSearchResp := .ok [] } 0 ⟨[]⟩ := by
  exact (determine_sync_mode_spec "files" "acct" _ _ _ 0 ⟨[]⟩
    ⟨some 7, some 15⟩ ⟨2, some 9, some 3⟩).2.2.2 rfl (by decide)

/-! ## Claim C2 -/

/-- C2: during an incremental sync with stored uid_next = N, a failure of
the UID FETCH command yields zero new messages and an untouched database
(no fall back to Full), and the processing loop ignores every response
whose UID is below N — it equals the loop run on the list with those
responses removed, so they produce no row and no flag update. -/
theorem sync_folder_incremental_spec (files_dir account_id : String) (db : Db)
    (folder : FolderRow) (N : Nat) (sess : Session) (now : Int) (gen : IdGen) :
    (∀ e, sess.uidFetchResp = .error e →
       sync_folder_incremental files_dir account_id db folder (some N) sess now gen =
         .ok (db, ⟨0, 0, 0⟩, gen)) ∧
    (∀ msgs db0 gen0,
       incrementalLoop files_dir account_id folder N now msgs db0 gen0 =
       incrementalLoop files_dir account_id folder N now
         (msgs.filter (fun m => !(match m.uid with
                                  | some u => decide (u < N)
                                  | none => false))) db0 gen0) := by
  constructor
  · intro e herr
    unfold sync_folder_incremental
    rw [herr]
  · intro msgs
    induction msgs with
    | nil => intro db0 gen0; rfl
    | cons m rest ih =>
      intro db0 gen0
      by_cases hskip : (match m.uid with
                        | some u => decide (u < N)
                        | none => false) = true
      · simp only [incrementalLoop, hskip, if_true, List.filter_cons,
          Bool.not_eq_true', Bool.not_eq_false]
        rw [ih db0 gen0]
        simp [hskip]
      · cases hpm : process_message files_dir account_id db0 folder m now gen0 with
        | ok v =>
          obtain ⟨db1, res, gen1⟩ := v
          simp only [incrementalLoop, hskip, if_false, List.filter_cons]
          rw [hpm]
          simp only [Bool.not_eq_true] at hskip
          simp [hskip, incrementalLoop, hpm, ih]
        | error e =>
          simp only [incrementalLoop, hskip, if_false, List.filter_cons]
          rw [hpm]
          simp only [Bool.not_eq_true] at hskip
          simp [hskip, incrementalLoop, hpm, ih]

/-- C2 witness: a failing UID FETCH on a concrete pass. -/
theorem sync_folder_incremental_spec_witness :
    sync_folder_incremental "files" "acct" Db.empty
      { id := "acct:INBOX", accountId := "acct", data := none, path := "INBOX",
        role := "inbox", uidValidity := some 7, uidNext := some 15,
        highestModSeq := none }
      (some 15)
      { selectResp := .ok ⟨3, some 7, some 15⟩, fetchResp := .ok [],
        uidFetchResp := .error "BAD", uidSearchResp := .ok [] } 0 ⟨[]⟩ =
      .ok (Db.empty, ⟨0, 0, 0⟩, (⟨[]⟩ : IdGen)) := by
  exact (sync_folder_incremental_spec "files" "acct" Db.empty _ 15 _ 0 ⟨[]⟩).1 "BAD" rfl

/-! ## Claim C10 -/

/-- C10: when a fetched message already exists in the folder and a flag
diverges, `process_message` returns FlagsUpdated and only rewrites the
flag columns of that message row — the thread, thread_folder,
thread_reference, message_body, file and folder tables are untouched, and
every message row not matching the key is untouched. -/
theorem process_message_flag_update_frame (files_dir account_id : String)
    (db : Db) (folder : FolderRow) (fetch : FetchResp) (now : Int) (gen : IdGen)
    (uid : Nat) (existing : Message)
    (hu : fetch.uid = some uid)
    (hex : get_message_by_uid db account_id folder.id uid = some existing)
    (hdiff : (existing.unread != !fetch.flagSeen ||
              existing.starred != fetch.flagFlagged ||
              existing.draft != fetch.flagDraft) = true) :
    ∃ db', process_message files_dir account_id db folder fetch now gen =
        .ok (db', .FlagsUpdated, gen) ∧
      db'.message = db.message.map (fun r =>
        if r.accountId == account_id && r.folderId == folder.id && r.remoteUID == uid then
          { r with unread := !fetch.flagSeen, starred := fetch.flagFlagged,
                   draft := fetch.flagDraft }
        else r) ∧
      db'.message_body = db.message_body ∧
      db'.thread = db.thread ∧
      db'.thread_folder = db.thread_folder ∧
      db'.thread_reference = db.thread_reference ∧
      db'.folder = db.folder ∧
      db'.file = db.file ∧
      (∀ r ∈ db.message,
        !(r.accountId == account_id && r.folderId == folder.id && r.remoteUID == uid) →
        r ∈ db'.message) := by
  refine ⟨{ db with message := db.message.map (fun r =>
      if r.accountId == account_id && r.folderId == folder.id && r.remoteUID == uid then
        { r with unread := !fetch.flagSeen, starred := fetch.flagFlagged,
                 draft := fetch.flagDraft }
      else r) }, ?_, rfl, rfl, rfl, rfl, rfl, rfl, rfl, ?_⟩
  · simp only [process_message, hu, hex, hdiff, if_true, update_message_flags]
  · intro r hr hkey
    have hmem := List.mem_map_of_mem
      (f := fun r0 : MessageRow =>
        if r0.accountId == account_id && r0.folderId == folder.id && r0.remoteUID == uid then
          { r0 with unread := !fetch.flagSeen, starred := fetch.flagFlagged,
                    draft := fetch.flagDraft }
        else r0) hr
    have hkey2 : (r.accountId == account_id && r.folderId == folder.id &&
        r.remoteUID == uid) = false := by
      cases hB : (r.accountId == account_id && r.folderId == folder.id &&
          r.remoteUID == uid) with
      | false => rfl
      | true => rw [hB] at hkey; exact absurd hkey (by decide)
    simpa [hkey2] using hmem

/-- C10 witness: a stored read message re-fetched as unseen. -/
theorem process_message_flag_update_frame_witness :
    ∃ db', process_message "files" "acct"
      { Db.empty with message := [c6_row] }
      { id := "acct:INBOX", accountId := "acct", data := none, path := "INBOX",
        role := "inbox", uidValidity := some 7, uidNext := some 15,
        highestModSeq := none }
      { uid := some 5, flagSeen := false, flagFlagged := false, flagDraft := false,
        envelope := none, internal_date := none, body := none } 0 ⟨[]⟩ =
      .ok (db', .FlagsUpdated, (⟨[]⟩ : IdGen)) ∧
      db'.message = [{ c6_row with unread := true, starred := false, draft := false }] := by
  obtain ⟨db', heq, hmsg, -⟩ := process_message_flag_update_frame "files" "acct"
    { Db.empty with message := [c6_row] }
    { id := "acct:INBOX", accountId := "acct", data := none, path := "INBOX",
      role := "inbox", uidValidity := some 7, uidNext := some 15,
      highestModSeq := none }
    { uid := some 5, flagSeen := false, flagFlagged := false, flagDraft := false,
      envelope := none, internal_date := none, body := none } 0 ⟨[]⟩ 5
    { id := "acct:acct:INBOX:5", accountId := "acct", folderId := "acct:INBOX",
      threadId := none, headerMessageId := some "old-header", remoteUID := 5,
      subject := "old subject", date := 10, draft := false, unread := false,
      starred := false, from_contacts := "[]", to_contacts := "[]",
      cc_contacts := "[]", bcc_contacts := "[]", reply_to_contacts := "[]",
      snippet := "", is_plaintext := false }
    rfl (by decide) (by decide)
  exact ⟨db', heq, by rw [hmsg]; rfl⟩

/-! ## Claim C3 -/

/-- Members of a list pairwise distinct under a projection are equal when
the projection agrees. -/
theorem mem_eq_of_pairwise_proj {α β : Type} (f : α → β) :
    ∀ {l : List α}, l.Pairwise (fun a b => f a ≠ f b) →
      ∀ {a b : α}, a ∈ l → b ∈ l → f a = f b → a = b := by
  intro l
  induction l with
  | nil => intro _ a b ha; cases ha
  | cons x xs ih =>
    intro hp a b ha hb hf
    have hx := (List.pairwise_cons.mp hp).1
    have hxs := (List.pairwise_cons.mp hp).2
    rcases List.mem_cons.mp ha with rfl | ha2 <;>
      rcases List.mem_cons.mp hb with rfl | hb2
    · rfl
    · exact absurd hf (hx _ hb2)
    · exact absurd hf.symm (hx _ ha2)
    · exact ih hxs ha2 hb2 hf

/-- `List.any` only depends on the predicate's values on members. -/
theorem any_congr_mem {α : Type} {p q : α → Bool} :
    ∀ {l : List α}, (∀ x ∈ l, p x = q x) → l.any p = l.any q := by
  intro l
  induction l with
  | nil => intro _; rfl
  | cons x xs ih =>
    intro h
    simp only [List.any_cons]
    rw [h x (by simp), ih (fun y hy => h y (by simp [hy]))]

/-- The messages `delete_removed_messages` targets: rows of the folder
whose UID occurs in the processed list but not in the server's search
result. -/
def folderKeyDel (acct fid : String) (S uids : List Nat) (m : MessageRow) : Bool :=
  m.accountId == acct && m.folderId == fid && uids.contains m.remoteUID &&
  !(S.contains m.remoteUID)

/-- Components of a `folderKeyDel` hit. -/
theorem folderKeyDel_elim {acct fid : String} {S uids : List Nat}
    {m : MessageRow} (h : folderKeyDel acct fid S uids m = true) :
    m.accountId = acct ∧ m.folderId = fid ∧ uids.contains m.remoteUID = true ∧
    S.contains m.remoteUID = false := by
  unfold folderKeyDel at h
  have h1 := Bool.and_eq_true_iff.mp h
  have h2 := Bool.and_eq_true_iff.mp h1.1
  have h3 := Bool.and_eq_true_iff.mp h2.1
  refine ⟨beq_iff_eq.mp h3.1, beq_iff_eq.mp h3.2, h2.2, ?_⟩
  have := h1.2
  cases hc : S.contains m.remoteUID with
  | false => rfl
  | true => rw [hc] at this; exact absurd this (by decide)

/-- Introduction for `folderKeyDel`. -/
theorem folderKeyDel_intro {acct fid : String} {S uids : List Nat}
    {m : MessageRow} (h1 : m.accountId = acct) (h2 : m.folderId = fid)
    (h3 : uids.contains m.remoteUID = true)
    (h4 : S.contains m.remoteUID = false) :
    folderKeyDel acct fid S uids m = true := by
  unfold folderKeyDel
  rw [h3, h4]
  simp [h1, h2]

/-- A `folderKeyDel` hit for the remaining uids is one for the extended
list. -/
theorem folderKeyDel_mono {acct fid : String} {S rest : List Nat} {u : Nat}
    {m : MessageRow} (h : folderKeyDel acct fid S rest m = true) :
    folderKeyDel acct fid S (u :: rest) m = true := by
  obtain ⟨h1, h2, h3, h4⟩ := folderKeyDel_elim h
  refine folderKeyDel_intro h1 h2 ?_ h4
  show ((m.remoteUID == u) || rest.contains m.remoteUID) = true
  rw [h3]
  simp

/-- A `folderKeyDel` hit for `u :: rest` whose uid is not `u` is a hit
for `rest`. -/
theorem folderKeyDel_cons_elim {acct fid : String} {S rest : List Nat} {u : Nat}
    {m : MessageRow} (h : folderKeyDel acct fid S (u :: rest) m = true)
    (hne : m.remoteUID ≠ u) : folderKeyDel acct fid S rest m = true := by
  obtain ⟨h1, h2, h3, h4⟩ := folderKeyDel_elim h
  refine folderKeyDel_intro h1 h2 ?_ h4
  have hc : ((m.remoteUID == u) || rest.contains m.remoteUID) = true := h3
  rcases Bool.or_eq_true_iff.mp hc with h | h
  · exact absurd (beq_iff_eq.mp h) hne
  · exact h

/-- Composing one per-id delete of a dependent table (message_body keyed
by row id, file keyed by messageId) with the remaining-uids
characterization yields the full characterization. -/
theorem delete_step_table {β : Type} (kf : β → String) (acct fid : String)
    (S rest : List Nat) (u : Nat) (tbl : List β) (dmsg : List MessageRow)
    (m0 : MessageRow)
    (hS : S.contains u = false)
    (hm0mem : m0 ∈ dmsg)
    (hacct0 : m0.accountId = acct) (hfid0 : m0.folderId = fid)
    (huid0 : m0.remoteUID = u)
    (hkeys : dmsg.Pairwise (fun a b =>
      (a.accountId, a.folderId, a.remoteUID) ≠ (b.accountId, b.folderId, b.remoteUID))) :
    (tbl.filter (fun b => !(kf b == m0.id))).filter (fun b =>
        !((dmsg.filter (fun r => !(r.id == m0.id))).any
          (fun m => folderKeyDel acct fid S rest m && kf b == m.id))) =
      tbl.filter (fun b =>
        !(dmsg.any (fun m => folderKeyDel acct fid S (u :: rest) m && kf b == m.id))) := by
  rw [List.filter_filter]
  apply List.filter_congr
  intro b _
  by_cases hbid : kf b = m0.id
  · have hkd : folderKeyDel acct fid S (u :: rest) m0 = true := by
      refine folderKeyDel_intro hacct0 hfid0 ?_ (by rw [huid0]; exact hS)
      show ((m0.remoteUID == u) || rest.contains m0.remoteUID) = true
      simp [huid0]
    have hany : dmsg.any
        (fun m => folderKeyDel acct fid S (u :: rest) m && kf b == m.id) = true := by
      refine List.any_eq_true.mpr ⟨m0, hm0mem, ?_⟩
      rw [hkd]
      simp [hbid]
    rw [hany]
    have hL : (!(kf b == m0.id)) = false := by simp [hbid]
    rw [hL]
    simp
  · have hanyEq : (dmsg.filter (fun r => !(r.id == m0.id))).any
        (fun m => folderKeyDel acct fid S rest m && kf b == m.id) =
        dmsg.any (fun m => folderKeyDel acct fid S (u :: rest) m && kf b == m.id) := by
      apply Bool.coe_iff_coe.mp
      constructor
      · intro h
        obtain ⟨m, hmmem, hmP⟩ := List.any_eq_true.mp h
        have hmmem2 := (List.mem_filter.mp hmmem).1
        have hand := Bool.and_eq_true_iff.mp hmP
        exact List.any_eq_true.mpr ⟨m, hmmem2, by rw [folderKeyDel_mono hand.1, hand.2]; rfl⟩
      · intro h
        obtain ⟨m, hmmem, hmP⟩ := List.any_eq_true.mp h
        have hand := Bool.and_eq_true_iff.mp hmP
        have hkfb : kf b = m.id := beq_iff_eq.mp hand.2
        have hmuid : m.remoteUID ≠ u := by
          intro hmu
          have hkeyeq : (m.accountId, m.folderId, m.remoteUID) =
              (m0.accountId, m0.folderId, m0.remoteUID) := by
            obtain ⟨h1, h2, -, -⟩ := folderKeyDel_elim hand.1
            rw [h1, h2, hmu, hacct0, hfid0, huid0]
          have heqm : m = m0 := mem_eq_of_pairwise_proj
            (fun r : MessageRow => (r.accountId, r.folderId, r.remoteUID))
            hkeys hmmem hm0mem hkeyeq
          exact hbid (by rw [hkfb, heqm])
        have hidne : m.id ≠ m0.id := fun hid => hbid (by rw [hkfb, hid])
        refine List.any_eq_true.mpr ⟨m, List.mem_filter.mpr ⟨hmmem, by simp [hidne]⟩, ?_⟩
        rw [folderKeyDel_cons_elim hand.1 hmuid, hand.2]
        rfl
    rw [hanyEq]
    simp [hbid]

/-- Same composition for the message table itself. -/
theorem delete_step_message (acct fid : String) (S rest : List Nat) (u : Nat)
    (dmsg : List MessageRow) (m0 : MessageRow)
    (hS : S.contains u = false)
    (hm0mem : m0 ∈ dmsg)
    (hacct0 : m0.accountId = acct) (hfid0 : m0.folderId = fid)
    (huid0 : m0.remoteUID = u)
    (hids : dmsg.Pairwise (fun a b => a.id ≠ b.id))
    (hkeys : dmsg.Pairwise (fun a b =>
      (a.accountId, a.folderId, a.remoteUID) ≠ (b.accountId, b.folderId, b.remoteUID))) :
    (dmsg.filter (fun r => !(r.id == m0.id))).filter
        (fun m => !(folderKeyDel acct fid S rest m)) =
      dmsg.filter (fun m => !(folderKeyDel acct fid S (u :: rest) m)) := by
  rw [List.filter_filter]
  apply List.filter_congr
  intro m hmmem
  by_cases hid : m.id = m0.id
  · have heqm : m = m0 :=
      mem_eq_of_pairwise_proj (fun r : MessageRow => r.id) hids hmmem hm0mem hid
    subst heqm
    have hkd : folderKeyDel acct fid S (u :: rest) m = true := by
      refine folderKeyDel_intro hacct0 hfid0 ?_ (by rw [huid0]; exact hS)
      show ((m.remoteUID == u) || rest.contains m.remoteUID) = true
      simp [huid0]
    rw [hkd]
    simp
  · have hkeep : (!(m.id == m0.id)) = true := by simp [hid]
    rw [hkeep]
    have hEq : folderKeyDel acct fid S rest m = folderKeyDel acct fid S (u :: rest) m := by
      by_cases hmu : m.remoteUID = u
      · by_cases hma : m.accountId = acct
        · by_cases hmf : m.folderId = fid
          · exfalso
            have hkeyeq : (m.accountId, m.folderId, m.remoteUID) =
                (m0.accountId, m0.folderId, m0.remoteUID) := by
              rw [hma, hmf, hmu, hacct0, hfid0, huid0]
            exact hid (by rw [mem_eq_of_pairwise_proj
              (fun r : MessageRow => (r.accountId, r.folderId, r.remoteUID))
              hkeys hmmem hm0mem hkeyeq])
          · have hb : (m.folderId == fid) = false := by simp [hmf]
            unfold folderKeyDel
            rw [hb]
            simp
        · have hb : (m.accountId == acct) = false := by simp [hma]
          unfold folderKeyDel
          rw [hb]
          simp
      · unfold folderKeyDel
        have hcc : (u :: rest).contains m.remoteUID = rest.contains m.remoteUID := by
          show ((m.remoteUID == u) || rest.contains m.remoteUID) = rest.contains m.remoteUID
          simp [hmu]
        rw [hcc]
    rw [hEq]
    simp

/-- Characterization of the deletion loop: starting from a database whose
message rows have pairwise-distinct ids and pairwise-distinct
(account, folder, uid) keys, the loop removes exactly the folder's
message rows whose uid occurs in the processed list but not in the
server's set, together with the body and file rows keyed by those
messages' ids, and touches nothing else. -/
theorem deleteRemovedLoop_cons (acct fid : String) (S : List Nat) (u : Nat)
    (rest : List Nat) (db : Db) :
    deleteRemovedLoop acct fid S (u :: rest) db =
      if S.contains u then deleteRemovedLoop acct fid S rest db
      else
        let del := delete_message_by_uid db acct fid u
        let r := deleteRemovedLoop acct fid S rest del.1
        (r.1, if del.2 then r.2 + 1 else r.2) := rfl

theorem deleteRemovedLoop_char (acct fid : String) (S : List Nat) :
    ∀ (uids : List Nat) (db : Db),
      db.message.Pairwise (fun a b => a.id ≠ b.id) →
      db.message.Pairwise (fun a b =>
        (a.accountId, a.folderId, a.remoteUID) ≠ (b.accountId, b.folderId, b.remoteUID)) →
      (deleteRemovedLoop acct fid S uids db).1 =
        { db with
          message := db.message.filter (fun m => !(folderKeyDel acct fid S uids m)),
          message_body := db.message_body.filter (fun b =>
            !(db.message.any (fun m => folderKeyDel acct fid S uids m && b.id == m.id))),
          file := db.file.filter (fun f =>
            !(db.message.any (fun m => folderKeyDel acct fid S uids m && f.messageId == m.id))) } := by
  intro uids
  induction uids with
  | nil =>
    intro db hids hkeys
    have h1 : ∀ m : MessageRow, folderKeyDel acct fid S [] m = false := by
      intro m
      unfold folderKeyDel
      simp
    have h2 : ∀ {α : Type} (l : List α), l.any (fun _ => false) = false := by
      intro α l
      induction l with
      | nil => rfl
      | cons x xs ihx => simp [List.any_cons, ihx]
    simp [deleteRemovedLoop, h1, h2]
  | cons u rest ih =>
    intro db hids hkeys
    cases hS : S.contains u with
    | true =>
      have hfun : ∀ m : MessageRow,
          folderKeyDel acct fid S (u :: rest) m = folderKeyDel acct fid S rest m := by
        intro m
        by_cases hm : m.remoteUID = u
        · unfold folderKeyDel
          have hSm : S.contains m.remoteUID = true := by rw [hm]; exact hS
          rw [hSm]
          simp
        · unfold folderKeyDel
          have hcc : (u :: rest).contains m.remoteUID = rest.contains m.remoteUID := by
            show ((m.remoteUID == u) || rest.contains m.remoteUID) = rest.contains m.remoteUID
            simp [hm]
          rw [hcc]
      have hloop : deleteRemovedLoop acct fid S (u :: rest) db =
          deleteRemovedLoop acct fid S rest db := by
        rw [deleteRemovedLoop_cons, hS]
        simp
      rw [hloop, ih db hids hkeys]
      have hfunExt : folderKeyDel acct fid S (u :: rest) = folderKeyDel acct fid S rest :=
        funext hfun
      rw [hfunExt]
    | false =>
      cases hfind : db.message.find? (fun r =>
          r.accountId == acct && r.folderId == fid && r.remoteUID == u) with
      | none =>
        have hdel : delete_message_by_uid db acct fid u = (db, false) := by
          unfold delete_message_by_uid
          rw [hfind]
        have hloop : (deleteRemovedLoop acct fid S (u :: rest) db).1 =
            (deleteRemovedLoop acct fid S rest db).1 := by
          rw [deleteRemovedLoop_cons, hS, hdel]
          simp
        rw [hloop, ih db hids hkeys]
        -- no row has the key (acct, fid, u), so the extra uid changes nothing
        have hnone : ∀ m ∈ db.message,
            folderKeyDel acct fid S (u :: rest) m = folderKeyDel acct fid S rest m := by
          intro m hm
          by_cases hmu : m.remoteUID = u
          · by_cases hma : m.accountId = acct
            · by_cases hmf : m.folderId = fid
              · exfalso
                have hfe := List.find?_eq_none.mp hfind m hm
                have hpm : (m.accountId == acct && m.folderId == fid &&
                    m.remoteUID == u) = false := Bool.eq_false_iff.mpr hfe
                simp [hma, hmf, hmu] at hpm
              · have hb : (m.folderId == fid) = false := by simp [hmf]
                unfold folderKeyDel
                rw [hb]
                simp
            · have hb : (m.accountId == acct) = false := by simp [hma]
              unfold folderKeyDel
              rw [hb]
              simp
          · unfold folderKeyDel
            have hcc : (u :: rest).contains m.remoteUID = rest.contains m.remoteUID := by
              show ((m.remoteUID == u) || rest.contains m.remoteUID) = rest.contains m.remoteUID
              simp [hmu]
            rw [hcc]
        congr 1
        · refine (List.filter_congr (fun m hm => ?_)).symm
          show (!(folderKeyDel acct fid S (u :: rest) m)) = !(folderKeyDel acct fid S rest m)
          rw [hnone m hm]
        · refine (List.filter_congr (fun b _ => ?_)).symm
          have hany := any_congr_mem (l := db.message)
            (p := fun m => folderKeyDel acct fid S (u :: rest) m && b.id == m.id)
            (q := fun m => folderKeyDel acct fid S rest m && b.id == m.id)
            (fun m hm => by
              show (folderKeyDel acct fid S (u :: rest) m && b.id == m.id) =
                (folderKeyDel acct fid S rest m && b.id == m.id)
              rw [hnone m hm])
          show (!(db.message.any (fun m => folderKeyDel acct fid S (u :: rest) m && b.id == m.id))) =
            !(db.message.any (fun m => folderKeyDel acct fid S rest m && b.id == m.id))
          rw [hany]
        · refine (List.filter_congr (fun f _ => ?_)).symm
          have hany := any_congr_mem (l := db.message)
            (p := fun m => folderKeyDel acct fid S (u :: rest) m && f.messageId == m.id)
            (q := fun m => folderKeyDel acct fid S rest m && f.messageId == m.id)
            (fun m hm => by
              show (folderKeyDel acct fid S (u :: rest) m && f.messageId == m.id) =
                (folderKeyDel acct fid S rest m && f.messageId == m.id)
              rw [hnone m hm])
          show (!(db.message.any (fun m => folderKeyDel acct fid S (u :: rest) m && f.messageId == m.id))) =
            !(db.message.any (fun m => folderKeyDel acct fid S rest m && f.messageId == m.id))
          rw [hany]
      | some m0 =>
        have hm0mem : m0 ∈ db.message := List.mem_of_find?_eq_some hfind
        have hm0pred := List.find?_some hfind
        have hand1 := Bool.and_eq_true_iff.mp hm0pred
        have hand2 := Bool.and_eq_true_iff.mp hand1.1
        have hacct0 : m0.accountId = acct := beq_iff_eq.mp hand2.1
        have hfid0 : m0.folderId = fid := beq_iff_eq.mp hand2.2
        have huid0 : m0.remoteUID = u := beq_iff_eq.mp hand1.2
        have hdel : delete_message_by_uid db acct fid u =
            ({ db with
               message_body := db.message_body.filter (fun b => !(b.id == m0.id)),
               file := db.file.filter (fun f => !(f.messageId == m0.id)),
               message := db.message.filter (fun r => !(r.id == m0.id)) }, true) := by
          unfold delete_message_by_uid
          rw [hfind]
        have hloop : (deleteRemovedLoop acct fid S (u :: rest) db).1 =
            (deleteRemovedLoop acct fid S rest
              { db with
                message_body := db.message_body.filter (fun b => !(b.id == m0.id)),
                file := db.file.filter (fun f => !(f.messageId == m0.id)),
                message := db.message.filter (fun r => !(r.id == m0.id)) }).1 := by
          rw [deleteRemovedLoop_cons, hS, hdel]
          simp
        have hids2 : (db.message.filter (fun r => !(r.id == m0.id))).Pairwise
            (fun a b => a.id ≠ b.id) := List.Pairwise.filter _ hids
        have hkeys2 : (db.message.filter (fun r => !(r.id == m0.id))).Pairwise
            (fun a b =>
              (a.accountId, a.folderId, a.remoteUID) ≠
              (b.accountId, b.folderId, b.remoteUID)) := List.Pairwise.filter _ hkeys
        rw [hloop, ih _ hids2 hkeys2]
        congr 1
        · exact delete_step_message acct fid S rest u db.message m0 hS hm0mem
            hacct0 hfid0 huid0 hids hkeys
        · exact delete_step_table (fun b : MessageBodyRow => b.id) acct fid S rest u
            db.message_body db.message m0 hS hm0mem hacct0 hfid0 huid0 hkeys
        · exact delete_step_table (fun f : FileRow => f.messageId) acct fid S rest u
            db.file db.message m0 hS hm0mem hacct0 hfid0 huid0 hkeys

/-- C3: after the deletion-reconciliation step run against a successful
UID SEARCH ALL result S (on a database whose message rows have distinct
ids and distinct (account, folder, uid) keys), every message of the
folder whose UID is absent from S is gone together with its body and
file rows; every message row that is not such a stale folder row
survives, as do all body and file rows not keyed by a deleted message's
id; the remaining tables are untouched. -/
theorem delete_removed_messages_spec (account_id : String) (db : Db)
    (folder : FolderRow) (S : List Nat)
    (hids : db.message.Pairwise (fun a b => a.id ≠ b.id))
    (hkeys : db.message.Pairwise (fun a b =>
      (a.accountId, a.folderId, a.remoteUID) ≠ (b.accountId, b.folderId, b.remoteUID))) :
    (∀ m ∈ db.message, m.accountId = account_id → m.folderId = folder.id →
       S.contains m.remoteUID = false →
       (∀ m' ∈ ((delete_removed_messages account_id db folder (.ok S)).1).message,
          ¬(m'.accountId = account_id ∧ m'.folderId = folder.id ∧
            m'.remoteUID = m.remoteUID)) ∧
       (∀ b ∈ ((delete_removed_messages account_id db folder (.ok S)).1).message_body,
          b.id ≠ m.id) ∧
       (∀ f ∈ ((delete_removed_messages account_id db folder (.ok S)).1).file,
          f.messageId ≠ m.id)) ∧
    (∀ m ∈ db.message,
       ¬(m.accountId = account_id ∧ m.folderId = folder.id ∧
         S.contains m.remoteUID = false) →
       m ∈ ((delete_removed_messages account_id db folder (.ok S)).1).message) ∧
    (∀ b ∈ db.message_body,
       (∀ m ∈ db.message, m.accountId = account_id → m.folderId = folder.id →
          S.contains m.remoteUID = false → b.id ≠ m.id) →
       b ∈ ((delete_removed_messages account_id db folder (.ok S)).1).message_body) ∧
    (∀ f ∈ db.file,
       (∀ m ∈ db.message, m.accountId = account_id → m.folderId = folder.id →
          S.contains m.remoteUID = false → f.messageId ≠ m.id) →
       f ∈ ((delete_removed_messages account_id db folder (.ok S)).1).file) ∧
    ((delete_removed_messages account_id db folder (.ok S)).1).thread = db.thread ∧
    ((delete_removed_messages account_id db folder (.ok S)).1).thread_folder = db.thread_folder ∧
    ((delete_removed_messages account_id db folder (.ok S)).1).thread_reference = db.thread_reference ∧
    ((delete_removed_messages account_id db folder (.ok S)).1).folder = db.folder := by
  have hchar : (delete_removed_messages account_id db folder (.ok S)).1 =
      { db with
        message := db.message.filter (fun m =>
          !(folderKeyDel account_id folder.id S
            (get_folder_message_uids db account_id folder.id) m)),
        message_body := db.message_body.filter (fun b =>
          !(db.message.any (fun m => folderKeyDel account_id folder.id S
            (get_folder_message_uids db account_id folder.id) m && b.id == m.id))),
        file := db.file.filter (fun f =>
          !(db.message.any (fun m => folderKeyDel account_id folder.id S
            (get_folder_message_uids db account_id folder.id) m && f.messageId == m.id))) } := by
    unfold delete_removed_messages
    exact deleteRemovedLoop_char account_id folder.id S _ db hids hkeys
  have hlocal : ∀ m ∈ db.message, m.accountId = account_id → m.folderId = folder.id →
      (get_folder_message_uids db account_id folder.id).contains m.remoteUID = true := by
    intro m hm hma hmf
    apply List.elem_iff.mpr
    unfold get_folder_message_uids
    exact List.mem_map_of_mem _ (List.mem_filter.mpr ⟨hm, by simp [hma, hmf]⟩)
  refine ⟨?_, ?_, ?_, ?_, by rw [hchar], by rw [hchar], by rw [hchar], by rw [hchar]⟩
  · intro m hm hma hmf hnS
    have hkd : folderKeyDel account_id folder.id S
        (get_folder_message_uids db account_id folder.id) m = true :=
      folderKeyDel_intro hma hmf (hlocal m hm hma hmf) hnS
    refine ⟨?_, ?_, ?_⟩
    · intro m' hm' hkey
      rw [hchar] at hm'
      obtain ⟨hm'mem, hm'keep⟩ := List.mem_filter.mp hm'
      have hkd' : folderKeyDel account_id folder.id S
          (get_folder_message_uids db account_id folder.id) m' = true :=
        folderKeyDel_intro hkey.1 hkey.2.1
          (by rw [hkey.2.2]; exact hlocal m hm hma hmf)
          (by rw [hkey.2.2]; exact hnS)
      rw [hkd'] at hm'keep
      exact absurd hm'keep (by decide)
    · intro b hb hbid
      rw [hchar] at hb
      obtain ⟨hbmem, hbkeep⟩ := List.mem_filter.mp hb
      have hany : db.message.any (fun m' => folderKeyDel account_id folder.id S
          (get_folder_message_uids db account_id folder.id) m' && b.id == m'.id) = true :=
        List.any_eq_true.mpr ⟨m, hm, by rw [hkd]; simp [hbid]⟩
      rw [hany] at hbkeep
      exact absurd hbkeep (by decide)
    · intro f hf hfid2
      rw [hchar] at hf
      obtain ⟨hfmem, hfkeep⟩ := List.mem_filter.mp hf
      have hany : db.message.any (fun m' => folderKeyDel account_id folder.id S
          (get_folder_message_uids db account_id folder.id) m' && f.messageId == m'.id) = true :=
        List.any_eq_true.mpr ⟨m, hm, by rw [hkd]; simp [hfid2]⟩
      rw [hany] at hfkeep
      exact absurd hfkeep (by decide)
  · intro m hm hnot
    rw [hchar]
    refine List.mem_filter.mpr ⟨hm, ?_⟩
    cases hkd : folderKeyDel account_id folder.id S
        (get_folder_message_uids db account_id folder.id) m with
    | false => rfl
    | true =>
      obtain ⟨h1, h2, -, h4⟩ := folderKeyDel_elim hkd
      exact absurd ⟨h1, h2, h4⟩ hnot
  · intro b hb hkeep
    rw [hchar]
    refine List.mem_filter.mpr ⟨hb, ?_⟩
    cases hany : db.message.any (fun m => folderKeyDel account_id folder.id S
        (get_folder_message_uids db account_id folder.id) m && b.id == m.id) with
    | false => rfl
    | true =>
      obtain ⟨m, hm, hmP⟩ := List.any_eq_true.mp hany
      have hand := Bool.and_eq_true_iff.mp hmP
      obtain ⟨h1, h2, -, h4⟩ := folderKeyDel_elim hand.1
      exact absurd (beq_iff_eq.mp hand.2) (hkeep m hm h1 h2 h4)
  · intro f hf hkeep
    rw [hchar]
    refine List.mem_filter.mpr ⟨hf, ?_⟩
    cases hany : db.message.any (fun m => folderKeyDel account_id folder.id S
        (get_folder_message_uids db account_id folder.id) m && f.messageId == m.id) with
    | false => rfl
    | true =>
      obtain ⟨m, hm, hmP⟩ := List.any_eq_true.mp hany
      have hand := Bool.and_eq_true_iff.mp hmP
      obtain ⟨h1, h2, -, h4⟩ := folderKeyDel_elim hand.1
      exact absurd (beq_iff_eq.mp hand.2) (hkeep m hm h1 h2 h4)

/-- Concrete database for the C3 witness: two messages in one folder
with a body and a file each. -/
def c3_db : Db :=
  { Db.empty with
    message :=
      [{ id := "a:a:IN:5", accountId := "a", data := none, folderId := "a:IN",
         threadId := none, headerMessageId := none, subject := "", draft := false,
         unread := false, starred := false, date := 0, remoteUID := 5 },
       { id := "a:a:IN:6", accountId := "a", data := none, folderId := "a:IN",
         threadId := none, headerMessageId := none, subject := "", draft := false,
         unread := false, starred := false, date := 0, remoteUID := 6 }],
    message_body := [⟨"a:a:IN:5", "five", 0⟩, ⟨"a:a:IN:6", "six", 0⟩],
    file :=
      [{ id := "f5", accountId := "a", messageId := "a:a:IN:5", fileName := "x",
         partId := "1", contentId := none, contentType := "t", size := 1,
         isInline := false, downloaded := false },
       { id := "f6", accountId := "a", messageId := "a:a:IN:6", fileName := "y",
         partId := "1", contentId := none, contentType := "t", size := 1,
         isInline := false, downloaded := false }] }

def c3_folder : FolderRow :=
  { id := "a:IN", accountId := "a", data := none, path := "IN", role := "inbox",
    uidValidity := some 1, uidNext := some 7, highestModSeq := none }

/-- C3 witness: reconciling against S = [6] removes UID 5's message, body
and file rows. -/
theorem delete_removed_messages_spec_witness :
    (∀ b ∈ ((delete_removed_messages "a" c3_db c3_folder (.ok [6])).1).message_body,
       b.id ≠ "a:a:IN:5") ∧
    (∀ f ∈ ((delete_removed_messages "a" c3_db c3_folder (.ok [6])).1).file,
       f.messageId ≠ "a:a:IN:5") := by
  have h := (delete_removed_messages_spec "a" c3_db c3_folder [6]
    (by decide) (by decide)).1
    { id := "a:a:IN:5", accountId := "a", data := none, folderId := "a:IN",
      threadId := none, headerMessageId := none, subject := "", draft := false,
      unread := false, starred := false, date := 0, remoteUID := 5 }
    (by decide) rfl rfl (by decide)
  exact ⟨h.2.1, h.2.2⟩

/-! ## Claim C8 -/

/-- C8 counterexample: `generate_snippet` deletes a control character
that is not whitespace instead of collapsing it to a space — on the
input a, U+0001, b the claim's collapse-to-single-space reading demands
"a b", but the code yields "ab" (the filter drops the character before
the whitespace pass ever sees it). -/
theorem generate_snippet_drops_control :
    generate_snippet "a\x01b" = "ab" ∧ ("ab" : String) ≠ "a b" := by
  constructor
  · rfl
  · decide

/-- Unfolding equations for `List.intercalate`. -/
theorem intercalate_nil_eq (s : List Char) :
    List.intercalate s ([] : List (List Char)) = [] := rfl

theorem intercalate_single_eq (s x : List Char) :
    List.intercalate s [x] = x := by
  simp [List.intercalate, List.intersperse]

theorem intercalate_cons2_eq (s x y : List Char) (t : List (List Char)) :
    List.intercalate s (x :: y :: t) = x ++ s ++ List.intercalate s (y :: t) := by
  simp [List.intercalate, List.intersperse]

/-- Every character of a token of `splitWhitespaceAux` satisfies any
property holding on the accumulator and on the non-whitespace input
characters. -/
theorem splitWhitespaceAux_chars (Q : Char → Prop) :
    ∀ (l acc : List Char), (∀ c ∈ acc, Q c) →
      (∀ c ∈ l, rustIsWhitespace c = false → Q c) →
      ∀ t ∈ splitWhitespaceAux l acc, ∀ c ∈ t, Q c := by
  intro l
  induction l with
  | nil =>
    intro acc hacc _ t ht c hc
    unfold splitWhitespaceAux at ht
    by_cases hae : acc.isEmpty
    · rw [if_pos hae] at ht
      cases ht
    · rw [if_neg hae] at ht
      rcases List.mem_singleton.mp ht with rfl
      exact hacc c (List.mem_reverse.mp hc)
  | cons a rest ih =>
    intro acc hacc hl t ht c hc
    unfold splitWhitespaceAux at ht
    by_cases hws : rustIsWhitespace a
    · rw [if_pos hws] at ht
      by_cases hae : acc.isEmpty
      · rw [if_pos hae] at ht
        exact ih [] (by intro c hc2; cases hc2)
          (fun c hc2 hcw => hl c (by simp [hc2]) hcw) t ht c hc
      · rw [if_neg hae] at ht
        rcases List.mem_cons.mp ht with rfl | ht2
        · exact hacc c (List.mem_reverse.mp hc)
        · exact ih [] (by intro c hc2; cases hc2)
            (fun c hc2 hcw => hl c (by simp [hc2]) hcw) t ht2 c hc
    · rw [if_neg hws] at ht
      refine ih (a :: acc) ?_ (fun c hc2 hcw => hl c (by simp [hc2]) hcw) t ht c hc
      intro c hc2
      rcases List.mem_cons.mp hc2 with rfl | hc3
      · exact hl c (by simp) (Bool.eq_false_iff.mpr hws)
      · exact hacc c hc3

/-- Tokens of `splitWhitespaceAux` are never empty. -/
theorem splitWhitespaceAux_ne_nil :
    ∀ (l acc : List Char), ∀ t ∈ splitWhitespaceAux l acc, t ≠ [] := by
  intro l
  induction l with
  | nil =>
    intro acc t ht
    unfold splitWhitespaceAux at ht
    by_cases hae : acc.isEmpty
    · rw [if_pos hae] at ht
      cases ht
    · rw [if_neg hae] at ht
      rcases List.mem_singleton.mp ht with rfl
      intro hnil
      exact hae (by simpa [List.isEmpty_iff] using List.reverse_eq_nil_iff.mp hnil)
  | cons a rest ih =>
    intro acc t ht
    unfold splitWhitespaceAux at ht
    by_cases hws : rustIsWhitespace a
    · rw [if_pos hws] at ht
      by_cases hae : acc.isEmpty
      · rw [if_pos hae] at ht
        exact ih [] t ht
      · rw [if_neg hae] at ht
        rcases List.mem_cons.mp ht with rfl | ht2
        · intro hnil
          exact hae (by simpa [List.isEmpty_iff] using List.reverse_eq_nil_iff.mp hnil)
        · exact ih [] t ht2
    · rw [if_neg hws] at ht
      exact ih (a :: acc) t ht

/-- Characters of an intercalation come from the separator or from a
token. -/
theorem mem_intercalate_sep (s : List Char) :
    ∀ (ts : List (List Char)) (c : Char), c ∈ List.intercalate s ts →
      c ∈ s ∨ ∃ t ∈ ts, c ∈ t := by
  intro ts
  induction ts with
  | nil => intro c hc; rw [intercalate_nil_eq] at hc; cases hc
  | cons x t ih =>
    intro c hc
    cases t with
    | nil =>
      rw [intercalate_single_eq] at hc
      exact Or.inr ⟨x, by simp, hc⟩
    | cons y t2 =>
      rw [intercalate_cons2_eq] at hc
      rcases List.mem_append.mp hc with hc1 | hc2
      · rcases List.mem_append.mp hc1 with hcx | hcs
        · exact Or.inr ⟨x, by simp, hcx⟩
        · exact Or.inl hcs
      · rcases ih c hc2 with hs | ⟨t3, ht3, hct⟩
        · exact Or.inl hs
        · exact Or.inr ⟨t3, by simp [ht3], hct⟩

/-- A list without spaces is chained under the no-two-spaces relation. -/
theorem chain'_of_no_space :
    ∀ (x : List Char), (∀ a ∈ x, a ≠ ' ') →
      x.Chain' (fun a b => ¬(a = ' ' ∧ b = ' ')) := by
  intro x
  induction x with
  | nil => intro _; exact List.chain'_nil
  | cons a l ih =>
    intro h
    cases l with
    | nil => exact List.chain'_singleton a
    | cons b t =>
      rw [List.chain'_cons]
      exact ⟨fun hab => h a (by simp) hab.1,
        ih (fun c hc => h c (by simp [hc]))⟩

/-- The head of an intercalation is the head of the first token. -/
theorem intercalate_head (s : List Char) (y : List Char) (t : List (List Char))
    (hy : y ≠ []) : (List.intercalate s (y :: t)).head? = y.head? := by
  cases t with
  | nil => rw [intercalate_single_eq]
  | cons z t2 =>
    rw [intercalate_cons2_eq, List.append_assoc]
    cases y with
    | nil => exact absurd rfl hy
    | cons c cs => rfl

/-- Intercalating nonempty space-free tokens with a single space never
produces two adjacent spaces. -/
theorem chain'_intercalate_tokens :
    ∀ (ts : List (List Char)), (∀ t ∈ ts, t ≠ []) →
      (∀ t ∈ ts, ∀ c ∈ t, c ≠ ' ') →
      (List.intercalate [' '] ts).Chain' (fun a b => ¬(a = ' ' ∧ b = ' ')) := by
  intro ts
  induction ts with
  | nil => intro _ _; exact List.chain'_nil
  | cons x t ih =>
    intro hne hns
    cases t with
    | nil =>
      rw [intercalate_single_eq]
      exact chain'_of_no_space x (hns x (by simp))
    | cons y t2 =>
      rw [intercalate_cons2_eq, List.append_assoc]
      apply List.chain'_append.mpr
      refine ⟨chain'_of_no_space x (hns x (by simp)), ?_, ?_⟩
      · apply List.chain'_append.mpr
        refine ⟨List.chain'_singleton _,
          ih (fun t3 ht3 => hne t3 (by simp [ht3]))
             (fun t3 ht3 => hns t3 (by simp [ht3])), ?_⟩
        intro a _ b hb
        have hhead : (List.intercalate [' '] (y :: t2)).head? = y.head? :=
          intercalate_head [' '] y t2 (hne y (by simp))
        rw [hhead] at hb
        intro hc
        exact hns y (by simp) b (List.mem_of_mem_head? hb) hc.2
      · intro a ha b _
        intro hc
        exact hns x (by simp) a (List.mem_of_mem_getLast? ha) hc.1

/-- A character of the cleaned snippet is the space separator or a
non-whitespace non-control character of the mapped input. -/
theorem mem_snippet_mapped (text : String) :
    ∀ c ∈ (text.toList.filter (fun c => !(rustIsControl c) || rustIsWhitespace c)).map
        (fun c => if rustIsWhitespace c then ' ' else c),
      c = ' ' ∨ (rustIsWhitespace c = false ∧ rustIsControl c = false) := by
  intro c hc
  obtain ⟨a, ha, rfl⟩ := List.mem_map.mp hc
  by_cases hws : rustIsWhitespace a
  · left
    simp [hws]
  · right
    have hp := (List.mem_filter.mp ha).2
    rw [if_neg hws]
    refine ⟨Bool.eq_false_iff.mpr hws, ?_⟩
    rcases Bool.or_eq_true_iff.mp hp with h | h
    · cases hcon : rustIsControl a with
      | false => rfl
      | true => rw [hcon] at h; exact absurd h (by decide)
    · exact absurd h hws

/-- The split-and-rejoin pipeline on a list whose characters are spaces
or non-whitespace non-control characters: the result is control-free,
never has two adjacent spaces, and never starts with a space. -/
theorem snippet_pipeline_facts (M : List Char)
    (hM : ∀ c ∈ M, c = ' ' ∨ (rustIsWhitespace c = false ∧ rustIsControl c = false)) :
    (∀ c ∈ List.intercalate [' '] (rustSplitWhitespace M), rustIsControl c = false) ∧
    (List.intercalate [' '] (rustSplitWhitespace M)).Chain'
      (fun a b => ¬(a = ' ' ∧ b = ' ')) ∧
    (∀ c ∈ (List.intercalate [' '] (rustSplitWhitespace M)).head?, c ≠ ' ') := by
  have htok : ∀ t ∈ rustSplitWhitespace M, ∀ c ∈ t,
      c ≠ ' ' ∧ rustIsControl c = false := by
    apply splitWhitespaceAux_chars
      (Q := fun c => c ≠ ' ' ∧ rustIsControl c = false) M []
    · intro c hc
      cases hc
    · intro c hc hcw
      rcases hM c hc with rfl | ⟨h1, h2⟩
      · exact absurd hcw (by decide)
      · refine ⟨?_, h2⟩
        intro hsp
        rw [hsp] at h1
        exact absurd h1 (by decide)
  have hne : ∀ t ∈ rustSplitWhitespace M, t ≠ [] := splitWhitespaceAux_ne_nil M []
  refine ⟨?_, ?_, ?_⟩
  · intro c hc
    rcases mem_intercalate_sep [' '] (rustSplitWhitespace M) c hc with hs | ⟨t, ht, hct⟩
    · rcases List.mem_singleton.mp hs with rfl
      decide
    · exact (htok t ht c hct).2
  · exact chain'_intercalate_tokens (rustSplitWhitespace M) hne
      (fun t ht c hc => (htok t ht c hc).1)
  · cases hts : rustSplitWhitespace M with
    | nil =>
      intro c hc
      rw [intercalate_nil_eq] at hc
      cases hc
    | cons y t =>
      rw [intercalate_head [' '] y t (hne y (by rw [hts]; simp))]
      intro c hc
      exact (htok y (by rw [hts]; simp) c (List.mem_of_mem_head? hc)).1

/-- The cleaned snippet text is control-free, has no adjacent spaces, and
does not start with a space. -/
theorem snippetClean_facts (text : String) :
    (∀ c ∈ snippetClean text, rustIsControl c = false) ∧
    (snippetClean text).Chain' (fun a b => ¬(a = ' ' ∧ b = ' ')) ∧
    (∀ c ∈ (snippetClean text).head?, c ≠ ' ') :=
  snippet_pipeline_facts _ (mem_snippet_mapped text)

/-- Taking a nonzero prefix preserves the head. -/
theorem head?_take {α : Type} (n : Nat) (l : List α) (hn : n ≠ 0) :
    (l.take n).head? = l.head? := by
  cases l with
  | nil => simp
  | cons a t =>
    cases n with
    | zero => exact absurd rfl hn
    | succ m => rfl

/-- C8 amended: `generate_snippet` deletes non-whitespace control
characters and collapses whitespace runs to single spaces (never two
adjacent spaces, never a leading space), truncates the cleaned text at
150 characters cutting at the last space when one exists and appends
three dots, so the result is at most 153 characters long and contains no
control character. -/
theorem generate_snippet_spec (text : String) :
    (generate_snippet text).length ≤ 153 ∧
    (∀ c ∈ (generate_snippet text).toList, rustIsControl c = false) ∧
    (generate_snippet text).toList.Chain' (fun a b => ¬(a = ' ' ∧ b = ' ')) ∧
    (∀ c ∈ (generate_snippet text).toList.head?, c ≠ ' ') := by
  obtain ⟨hctrl, hchain, hhead⟩ := snippetClean_facts text
  unfold generate_snippet
  by_cases hlen : (snippetClean text).length ≤ 150
  · rw [if_pos hlen]
    exact ⟨by show (snippetClean text).length ≤ 153; omega, hctrl, hchain, hhead⟩
  · rw [if_neg hlen]
    have hlen' : 150 < (snippetClean text).length := by omega
    have htl : ((snippetClean text).take 150).length = 150 := by
      rw [List.length_take]
      omega
    have hsubset150 : (snippetClean text).take 150 ⊆ snippetClean text :=
      List.take_subset _ _
    have hchain150 : ((snippetClean text).take 150).Chain'
        (fun a b => ¬(a = ' ' ∧ b = ' ')) := hchain.take _
    have hdots : (['.', '.', '.'] : List Char).Chain'
        (fun a b => ¬(a = ' ' ∧ b = ' ')) := by
      rw [List.chain'_cons, List.chain'_cons]
      exact ⟨by decide, by decide, List.chain'_singleton _⟩
    have hparts : ∀ (pre : List Char), pre ⊆ snippetClean text →
        pre.Chain' (fun a b => ¬(a = ' ' ∧ b = ' ')) →
        (∀ c ∈ pre.head?, c ≠ ' ') →
        (∀ c ∈ (String.mk pre ++ "...").toList, rustIsControl c = false) ∧
        (String.mk pre ++ "...").toList.Chain' (fun a b => ¬(a = ' ' ∧ b = ' ')) ∧
        (∀ c ∈ (String.mk pre ++ "...").toList.head?, c ≠ ' ') := by
      intro pre hsub hchainP hheadP
      have htolist : (String.mk pre ++ "...").toList = pre ++ ['.', '.', '.'] := rfl
      refine ⟨?_, ?_, ?_⟩
      · intro c hc
        rw [htolist] at hc
        rcases List.mem_append.mp hc with h1 | h2
        · exact hctrl c (hsub h1)
        · have : c = '.' := by simpa using h2
          rw [this]
          decide
      · rw [htolist]
        apply List.chain'_append.mpr
        refine ⟨hchainP, hdots, ?_⟩
        intro a _ b hb
        have hbdot : b = '.' := by
          simp only [List.head?] at hb
          exact (Option.mem_some_iff.mp hb).symm
        intro hcon
        rw [hbdot] at hcon
        exact absurd hcon.2 (by decide)
      · rw [htolist]
        intro c hc
        rw [List.head?_append] at hc
        cases hp : pre.head? with
        | none =>
          rw [hp] at hc
          have : c = '.' := by
            simp only [Option.or] at hc
            exact (Option.mem_some_iff.mp hc).symm
          rw [this]
          decide
        | some d =>
          rw [hp] at hc
          have hcd : c = d := by
            simp only [Option.or] at hc
            exact (Option.mem_some_iff.mp hc).symm
          rw [hcd]
          exact hheadP d (by rw [hp]; rfl)
    cases hrf : rfindSpace ((snippetClean text).take 150) with
    | some idx =>
      have hidx : idx ≤ 149 := by
        unfold rfindSpace at hrf
        obtain ⟨j, hj, hji⟩ := Option.map_eq_some'.mp hrf
        rw [htl] at hji
        omega
      have hsubP : ((snippetClean text).take 150).take idx ⊆ snippetClean text :=
        fun c hc => hsubset150 (List.take_subset _ _ hc)
      have hheadP : ∀ c ∈ (((snippetClean text).take 150).take idx).head?, c ≠ ' ' := by
        intro c hc
        by_cases hiz : idx = 0
        · rw [hiz] at hc
          cases hc
        · rw [head?_take idx _ hiz, head?_take 150 _ (by omega)] at hc
          exact hhead c hc
      obtain ⟨h2, h3, h4⟩ := hparts _ hsubP (hchain150.take _) hheadP
      refine ⟨?_, h2, h3, h4⟩
      show (String.mk (((snippetClean text).take 150).take idx) ++ "...").length ≤ 153
      rw [String.length_append]
      have hlmk : (String.mk (((snippetClean text).take 150).take idx)).length =
          (((snippetClean text).take 150).take idx).length := rfl
      rw [hlmk]
      have hl3 : ("..." : String).length = 3 := rfl
      rw [hl3]
      have : (((snippetClean text).take 150).take idx).length ≤ idx := by
        rw [List.length_take]
        omega
      omega
    | none =>
      have hheadP : ∀ c ∈ ((snippetClean text).take 150).head?, c ≠ ' ' := by
        intro c hc
        rw [head?_take 150 _ (by omega)] at hc
        exact hhead c hc
      obtain ⟨h2, h3, h4⟩ := hparts _ hsubset150 hchain150 hheadP
      refine ⟨?_, h2, h3, h4⟩
      show (String.mk ((snippetClean text).take 150) ++ "...").length ≤ 153
      rw [String.length_append]
      have hlmk : (String.mk ((snippetClean text).take 150)).length =
          ((snippetClean text).take 150).length := rfl
      rw [hlmk, htl]
      have hl3 : ("..." : String).length = 3 := rfl
      rw [hl3]

/-! ## Claim C4 -/

/-- Unfolding of `process_message` on a fresh message (no stored row)
whose fetch response carries an envelope, an internal date and no body
bytes. -/
theorem process_message_new_eq (files_dir account_id : String) (db : Db)
    (folder : FolderRow) (fetch : FetchResp) (now : Int) (gen : IdGen)
    (uid : Nat) (env : Envelope) (d : Int)
    (hu : fetch.uid = some uid)
    (hmiss : get_message_by_uid db account_id folder.id uid = none)
    (henv : fetch.envelope = some env)
    (hdate : fetch.internal_date = some d)
    (hbody : fetch.body = none) :
    process_message files_dir account_id db folder fetch now gen =
      (let message : Message :=
        { id := account_id ++ ":" ++ folder.id ++ ":" ++ toString uid,
          accountId := account_id, folderId := folder.id,
          threadId := none, headerMessageId := env.message_id,
          remoteUID := uid,
          subject := (env.subject.map decode_header).getD "",
          date := d, draft := fetch.flagDraft, unread := !fetch.flagSeen,
          starred := fetch.flagFlagged,
          from_contacts := env.from_addrs, to_contacts := env.to_addrs,
          cc_contacts := env.cc_addrs, bcc_contacts := env.bcc_addrs,
          reply_to_contacts := env.reply_to_addrs,
          snippet := "", is_plaintext := false }
       let foct := find_or_create_thread account_id db message folder
         (extract_in_reply_to_ids env) gen
       Except.ok (upsert_message foct.2.1 { message with threadId := some foct.1 } now,
         MessageProcessResult.New, foct.2.2)) := by
  simp only [process_message, hu, hmiss, henv, hdate, hbody, Message.new,
    ParsedMessage.default]
  rfl

/-- `update_thread_with_message` updates some thread row whose id and
accountId are the old ones and whose counts grew by the message's
flags. -/
theorem update_thread_with_message_eq (account_id : String) (db : Db)
    (thread_id : String) (message : Message) (folder : FolderRow)
    (thread : ThreadRow)
    (hget : get_thread_by_id db thread_id = some thread) :
    ∃ thr',
      update_thread_with_message account_id db thread_id message folder =
        (if !(thread_folder_exists (upsert_thread db thr') account_id thread_id
              folder.id) then
          insert_thread_folder (upsert_thread db thr')
            ⟨account_id, thread_id, folder.id⟩
        else upsert_thread db thr') ∧
      thr'.id = thread.id ∧ thr'.accountId = thread.accountId ∧
      thr'.unread = thread.unread + (if message.unread then 1 else 0) ∧
      thr'.starred = thread.starred + (if message.starred then 1 else 0) := by
  unfold update_thread_with_message
  rw [hget]
  refine ⟨_, rfl, ?_, ?_, ?_, ?_⟩ <;>
    (dsimp only; split <;> split <;> split <;> split <;> simp)

/-- `find_or_create_thread` when the message's own id is registered. -/
theorem find_or_create_thread_own_eq (account_id : String) (db : Db)
    (message : Message) (folder : FolderRow) (ids : List String) (gen : IdGen)
    (h tid : String)
    (hh : message.headerMessageId = some h)
    (hfind : find_thread_by_message_id db account_id h = some tid) :
    find_or_create_thread account_id db message folder ids gen =
      (tid, update_thread_with_message account_id db tid message folder, gen) := by
  unfold find_or_create_thread
  rw [hh]
  show (match find_thread_by_message_id db account_id h with
        | some tid => (tid, update_thread_with_message account_id db tid message folder, gen)
        | none => _) = _
  rw [hfind]

/-- `find_or_create_thread` when the own id is unregistered and a
registered In-Reply-To id resolves the thread. -/
theorem find_or_create_thread_reply_eq (account_id : String) (db : Db)
    (message : Message) (folder : FolderRow) (ids : List String) (gen : IdGen)
    (h tid : String)
    (hh : message.headerMessageId = some h)
    (hown : find_thread_by_message_id db account_id h = none)
    (hreply : findThreadViaReplies db account_id ids = some tid) :
    find_or_create_thread account_id db message folder ids gen =
      (tid,
       insert_thread_reference
         (update_thread_with_message account_id db tid message folder)
         ⟨tid, account_id, h⟩, gen) := by
  unfold find_or_create_thread
  rw [hh]
  show (match find_thread_by_message_id db account_id h with
        | some tid => (tid, update_thread_with_message account_id db tid message folder, gen)
        | none => _) = _
  rw [hown, hreply]

/-- `find_or_create_thread` when nothing is registered: a fresh thread is
created, both the own id and all reply ids are registered, and the
folder association is inserted. -/
theorem find_or_create_thread_create_eq (account_id : String) (db : Db)
    (message : Message) (folder : FolderRow) (ids : List String) (gen : IdGen)
    (h : String)
    (hh : message.headerMessageId = some h)
    (hown : find_thread_by_message_id db account_id h = none)
    (hreply : findThreadViaReplies db account_id ids = none) :
    find_or_create_thread account_id db message folder ids gen =
      (gen.draw.1,
       insert_thread_folder
         (ids.foldl
           (fun db2 r => insert_thread_reference db2 ⟨gen.draw.1, account_id, r⟩)
           (insert_thread_reference
             (upsert_thread db
               { id := gen.draw.1, accountId := account_id,
                 data := some (threadDataJson message.from_contacts folder.id),
                 subject := message.subject,
                 snippet := get_snippet_from_message message,
                 unread := if message.unread then 1 else 0,
                 starred := if message.starred then 1 else 0,
                 firstMessageTimestamp := message.date,
                 lastMessageTimestamp := message.date })
             ⟨gen.draw.1, account_id, h⟩))
         ⟨account_id, gen.draw.1, folder.id⟩,
       gen.draw.2) := by
  unfold find_or_create_thread
  rw [hh]
  show (match find_thread_by_message_id db account_id h with
        | some tid => (tid, update_thread_with_message account_id db tid message folder, gen)
        | none => _) = _
  rw [hown, hreply]

/-- Ingest two messages through `process_message`, starting from an empty
mirror. -/
def ingestTwo (files_dir account_id : String) (fa : FolderRow) (ma : FetchResp)
    (fb : FolderRow) (mb : FetchResp) (now : Int) (gen : IdGen) :
    Except String (Db × IdGen) :=
  match process_message files_dir account_id Db.empty fa ma now gen with
  | .error e => .error e
  | .ok (db1, _, gen1) =>
    match process_message files_dir account_id db1 fb mb now gen1 with
    | .error e => .error e
    | .ok (db2, _, gen2) => .ok (db2, gen2)

/-- An empty thread-reference index never resolves a reply id. -/
theorem findThreadViaReplies_empty (account_id : String) :
    ∀ ids : List String, findThreadViaReplies Db.empty account_id ids = none := by
  intro ids
  induction ids with
  | nil => rfl
  | cons r rest ih =>
    unfold findThreadViaReplies
    rw [show find_thread_by_message_id Db.empty account_id r = none from rfl]
    exact ih

/-- Joining property of the threader, first order: the original message
M1 arrives before the reply M2, possibly in another folder. -/
theorem threading_join_first_order
    (files_dir account_id a b T sub1 sub2 fc1 fc2 : String)
    (f1 f2 : FolderRow) (seen1 flag1 draft1 seen2 flag2 draft2 : Bool)
    (t1 t2 now : Int) (uidA uidB : Nat)
    (hab : a ≠ b)
    (hsplit : (rustSplitWhitespace a.toList).map String.mk = [a])
    (hid12 : account_id ++ ":" ++ f1.id ++ ":" ++ toString uidA ≠
             account_id ++ ":" ++ f2.id ++ ":" ++ toString uidB) :
    ∃ dbF genF,
      ingestTwo files_dir account_id
        f1 ⟨some uidA, seen1, flag1, draft1,
            some ⟨some sub1, some a, none, fc1, "[]", "[]", "[]", "[]"⟩,
            some t1, none⟩
        f2 ⟨some uidB, seen2, flag2, draft2,
            some ⟨some sub2, some b, some a, fc2, "[]", "[]", "[]", "[]"⟩,
            some t2, none⟩
        now ⟨[T]⟩ = .ok (dbF, genF) ∧
      (∀ m ∈ dbF.message, m.threadId = some T) ∧
      (∃ thr, get_thread_by_id dbF T = some thr ∧
        thr.unread = (if seen1 then 0 else 1) + (if seen2 then 0 else 1) ∧
        thr.starred = (if flag1 then 1 else 0) + (if flag2 then 1 else 0)) := by
  -- Step 1: M1 into the empty mirror creates thread T.
  obtain ⟨db1, hA1, ⟨row1, hrow1eq, hr1acc, hr1fid, hr1uid, hr1id, hr1tid⟩,
          ⟨th1, hth1eq, hth1id, hth1unread, hth1star⟩, htrA⟩ :
      ∃ db1, process_message files_dir account_id Db.empty f1
          ⟨some uidA, seen1, flag1, draft1,
           some ⟨some sub1, some a, none, fc1, "[]", "[]", "[]", "[]"⟩,
           some t1, none⟩ now ⟨[T]⟩ = .ok (db1, .New, ⟨[]⟩) ∧
        (∃ row1, db1.message = [row1] ∧ row1.accountId = account_id ∧
          row1.folderId = f1.id ∧ row1.remoteUID = uidA ∧
          row1.id = account_id ++ ":" ++ f1.id ++ ":" ++ toString uidA ∧
          row1.threadId = some T) ∧
        (∃ th1, db1.thread = [th1] ∧ th1.id = T ∧
          th1.unread = (if seen1 then 0 else 1) ∧
          th1.starred = (if flag1 then 1 else 0)) ∧
        db1.thread_reference = [⟨T, account_id, a⟩] := by
    refine ⟨_, rfl, ⟨_, rfl, rfl, rfl, rfl, rfl, rfl⟩,
      ⟨_, rfl, rfl, ?_, ?_⟩, rfl⟩
    · cases seen1 <;> rfl
    · cases flag1 <;> rfl
  -- boolean disequalities
  have habB : (a == b) = false := beq_eq_false_iff_ne.mpr hab
  have hkeyne : ((f1.id == f2.id) && (uidA == uidB)) = false := by
    by_cases hf : f1.id = f2.id
    · by_cases hu : uidA = uidB
      · exact absurd (by rw [hf, hu]) hid12
      · simp [hu]
    · simp [hf]
  -- Step 2: M2 lands in the same thread via its In-Reply-To.
  have hmiss2 : get_message_by_uid db1 account_id f2.id uidB = none := by
    unfold get_message_by_uid
    rw [hrow1eq]
    have hpred : (row1.accountId == account_id && row1.folderId == f2.id &&
        row1.remoteUID == uidB) = false := by
      rw [hr1acc, hr1fid, hr1uid]
      simp only [beq_self_eq_true, Bool.true_and]
      exact hkeyne
    rw [List.find?_cons_of_neg _ (by simp [hpred])]
    rfl
  have hown2 : find_thread_by_message_id db1 account_id b = none := by
    unfold find_thread_by_message_id
    rw [htrA]
    rw [List.find?_cons_of_neg _ (by simp [habB])]
    rfl
  have hfa : find_thread_by_message_id db1 account_id a = some T := by
    unfold find_thread_by_message_id
    rw [htrA]
    rw [List.find?_cons_of_pos _ (by simp)]
    rfl
  have hreplyT : findThreadViaReplies db1 account_id [a] = some T := by
    unfold findThreadViaReplies
    rw [hfa]
  have hgetT : get_thread_by_id db1 T = some th1 := by
    unfold get_thread_by_id
    rw [hth1eq]
    rw [List.find?_cons_of_pos _ (by simp [hth1id])]
  obtain ⟨thr', hupdEq, hthr'id, hthr'acc, hthr'unread, hthr'star⟩ :=
    update_thread_with_message_eq account_id db1 T
      { id := account_id ++ ":" ++ f2.id ++ ":" ++ toString uidB,
        accountId := account_id, folderId := f2.id,
        threadId := none, headerMessageId := some b, remoteUID := uidB,
        subject := sub2, date := t2, draft := draft2, unread := !seen2,
        starred := flag2, from_contacts := fc2, to_contacts := "[]",
        cc_contacts := "[]", bcc_contacts := "[]", reply_to_contacts := "[]",
        snippet := "", is_plaintext := false } f2 th1 hgetT
  have hA2 : process_message files_dir account_id db1 f2
      ⟨some uidB, seen2, flag2, draft2,
       some ⟨some sub2, some b, some a, fc2, "[]", "[]", "[]", "[]"⟩,
       some t2, none⟩ now ⟨[]⟩ =
      .ok (upsert_message
            (insert_thread_reference
              (update_thread_with_message account_id db1 T
                { id := account_id ++ ":" ++ f2.id ++ ":" ++ toString uidB,
                  accountId := account_id, folderId := f2.id,
                  threadId := none, headerMessageId := some b, remoteUID := uidB,
                  subject := sub2, date := t2, draft := draft2, unread := !seen2,
                  starred := flag2, from_contacts := fc2, to_contacts := "[]",
                  cc_contacts := "[]", bcc_contacts := "[]",
                  reply_to_contacts := "[]",
                  snippet := "", is_plaintext := false } f2)
              ⟨T, account_id, b⟩)
            { id := account_id ++ ":" ++ f2.id ++ ":" ++ toString uidB,
              accountId := account_id, folderId := f2.id,
              threadId := some T, headerMessageId := some b, remoteUID := uidB,
              subject := sub2, date := t2, draft := draft2, unread := !seen2,
              starred := flag2, from_contacts := fc2, to_contacts := "[]",
              cc_contacts := "[]", bcc_contacts := "[]", reply_to_contacts := "[]",
              snippet := "", is_plaintext := false } now,
          .New, ⟨[]⟩) := by
    rw [process_message_new_eq files_dir account_id db1 f2 _ now ⟨[]⟩ uidB
      ⟨some sub2, some b, some a, fc2, "[]", "[]", "[]", "[]"⟩ t2 rfl hmiss2 rfl rfl rfl]
    dsimp only
    simp only [Option.map_some', Option.getD_some, decode_header]
    have hext : extract_in_reply_to_ids
        ⟨some sub2, some b, some a, fc2, "[]", "[]", "[]", "[]"⟩ = [a] := by
      unfold extract_in_reply_to_ids
      exact hsplit
    rw [hext]
    rw [find_or_create_thread_reply_eq account_id db1 _ f2 [a] ⟨[]⟩ b T rfl hown2 hreplyT]
  -- Projections of the assembled database.
  have hbeqT : (th1.id == thr'.id) = true := by
    rw [hthr'id, hth1id]
    exact beq_self_eq_true T
  have hupdMsg : (update_thread_with_message account_id db1 T
      { id := account_id ++ ":" ++ f2.id ++ ":" ++ toString uidB,
        accountId := account_id, folderId := f2.id,
        threadId := none, headerMessageId := some b, remoteUID := uidB,
        subject := sub2, date := t2, draft := draft2, unread := !seen2,
        starred := flag2, from_contacts := fc2, to_contacts := "[]",
        cc_contacts := "[]", bcc_contacts := "[]", reply_to_contacts := "[]",
        snippet := "", is_plaintext := false } f2).message = db1.message := by
    rw [hupdEq]
    split
    · show (insert_thread_folder (upsert_thread db1 thr') _).message = _
      unfold insert_thread_folder upsert_thread
      split <;> rfl
    · unfold upsert_thread
      split <;> rfl
  have hupdThr : (update_thread_with_message account_id db1 T
      { id := account_id ++ ":" ++ f2.id ++ ":" ++ toString uidB,
        accountId := account_id, folderId := f2.id,
        threadId := none, headerMessageId := some b, remoteUID := uidB,
        subject := sub2, date := t2, draft := draft2, unread := !seen2,
        starred := flag2, from_contacts := fc2, to_contacts := "[]",
        cc_contacts := "[]", bcc_contacts := "[]", reply_to_contacts := "[]",
        snippet := "", is_plaintext := false } f2).thread =
      (upsert_thread db1 thr').thread := by
    rw [hupdEq]
    split
    · show (insert_thread_folder (upsert_thread db1 thr') _).thread = _
      unfold insert_thread_folder
      rfl
    · rfl
  obtain ⟨thU, hthUeq, hthUid, hthUunread, hthUstar⟩ :
      ∃ thU, (upsert_thread db1 thr').thread = [thU] ∧ thU.id = T ∧
        thU.unread = thr'.unread ∧ thU.starred = thr'.starred := by
    have hany : db1.thread.any (fun r => r.id == thr'.id) = true := by
      rw [hth1eq]
      simp [hbeqT]
    refine ⟨{ th1 with
        data := thr'.data, subject := thr'.subject,
        snippet := thr'.snippet, unread := thr'.unread,
        starred := thr'.starred,
        firstMessageTimestamp := thr'.firstMessageTimestamp,
        lastMessageTimestamp := thr'.lastMessageTimestamp },
      ?_, hth1id, rfl, rfl⟩
    unfold upsert_thread
    rw [hany]
    simp only [if_true]
    rw [hth1eq]
    simp [hbeqT]
    intro hne
    exact absurd hthr'id.symm hne
  have htrMsg : ∀ (X : Db) (r : ThreadReferenceRow),
      (insert_thread_reference X r).message = X.message := by
    intro X r
    unfold insert_thread_reference
    split <;> rfl
  have htrThr : ∀ (X : Db) (r : ThreadReferenceRow),
      (insert_thread_reference X r).thread = X.thread := by
    intro X r
    unfold insert_thread_reference
    split <;> rfl
  refine ⟨upsert_message
      (insert_thread_reference
        (update_thread_with_message account_id db1 T
          { id := account_id ++ ":" ++ f2.id ++ ":" ++ toString uidB,
            accountId := account_id, folderId := f2.id,
            threadId := none, headerMessageId := some b, remoteUID := uidB,
            subject := sub2, date := t2, draft := draft2, unread := !seen2,
            starred := flag2, from_contacts := fc2, to_contacts := "[]",
            cc_contacts := "[]", bcc_contacts := "[]", reply_to_contacts := "[]",
            snippet := "", is_plaintext := false } f2)
        ⟨T, account_id, b⟩)
      { id := account_id ++ ":" ++ f2.id ++ ":" ++ toString uidB,
        accountId := account_id, folderId := f2.id,
        threadId := some T, headerMessageId := some b, remoteUID := uidB,
        subject := sub2, date := t2, draft := draft2, unread := !seen2,
        starred := flag2, from_contacts := fc2, to_contacts := "[]",
        cc_contacts := "[]", bcc_contacts := "[]", reply_to_contacts := "[]",
        snippet := "", is_plaintext := false } now,
    ⟨[]⟩, ?_, ?_, ?_⟩
  · show ingestTwo _ _ _ _ _ _ _ _ = _
    unfold ingestTwo
    rw [hA1]
    dsimp only
    rw [hA2]
  · -- every stored message carries thread id T
    intro m hm
    have hFmsg : (upsert_message
        (insert_thread_reference
          (update_thread_with_message account_id db1 T
            { id := account_id ++ ":" ++ f2.id ++ ":" ++ toString uidB,
              accountId := account_id, folderId := f2.id,
              threadId := none, headerMessageId := some b, remoteUID := uidB,
              subject := sub2, date := t2, draft := draft2, unread := !seen2,
              starred := flag2, from_contacts := fc2, to_contacts := "[]",
              cc_contacts := "[]", bcc_contacts := "[]", reply_to_contacts := "[]",
              snippet := "", is_plaintext := false } f2)
          ⟨T, account_id, b⟩)
        { id := account_id ++ ":" ++ f2.id ++ ":" ++ toString uidB,
          accountId := account_id, folderId := f2.id,
          threadId := some T, headerMessageId := some b, remoteUID := uidB,
          subject := sub2, date := t2, draft := draft2, unread := !seen2,
          starred := flag2, from_contacts := fc2, to_contacts := "[]",
          cc_contacts := "[]", bcc_contacts := "[]", reply_to_contacts := "[]",
          snippet := "", is_plaintext := false } now).message =
        [row1,
         { id := account_id ++ ":" ++ f2.id ++ ":" ++ toString uidB,
           accountId := account_id,
           data := some (Message.get_data
             { id := account_id ++ ":" ++ f2.id ++ ":" ++ toString uidB,
               accountId := account_id, folderId := f2.id,
               threadId := some T, headerMessageId := some b, remoteUID := uidB,
               subject := sub2, date := t2, draft := draft2, unread := !seen2,
               starred := flag2, from_contacts := fc2, to_contacts := "[]",
               cc_contacts := "[]", bcc_contacts := "[]", reply_to_contacts := "[]",
               snippet := "", is_plaintext := false } now),
           folderId := f2.id, threadId := some T, headerMessageId := some b,
           subject := sub2, draft := draft2, unread := !seen2, starred := flag2,
           date := t2, remoteUID := uidB }] := by
      have hPreMsg : (insert_thread_reference
          (update_thread_with_message account_id db1 T
            { id := account_id ++ ":" ++ f2.id ++ ":" ++ toString uidB,
              accountId := account_id, folderId := f2.id,
              threadId := none, headerMessageId := some b, remoteUID := uidB,
              subject := sub2, date := t2, draft := draft2, unread := !seen2,
              starred := flag2, from_contacts := fc2, to_contacts := "[]",
              cc_contacts := "[]", bcc_contacts := "[]", reply_to_contacts := "[]",
              snippet := "", is_plaintext := false } f2)
          ⟨T, account_id, b⟩).message = [row1] := by
        rw [htrMsg, hupdMsg, hrow1eq]
      unfold upsert_message
      rw [hPreMsg]
      rw [show ([row1].any (fun r =>
          r.id == account_id ++ ":" ++ f2.id ++ ":" ++ toString uidB)) = false by
        simp only [List.any_cons, List.any_nil, Bool.or_false]
        rw [hr1id]
        exact beq_eq_false_iff_ne.mpr hid12]
      rfl
    rw [hFmsg] at hm
    rcases List.mem_cons.mp hm with rfl | hm2
    · exact hr1tid
    · rcases List.mem_cons.mp hm2 with rfl | hm3
      · rfl
      · cases hm3
  · -- the thread row and its counts
    have hFthr : (upsert_message
        (insert_thread_reference
          (update_thread_with_message account_id db1 T
            { id := account_id ++ ":" ++ f2.id ++ ":" ++ toString uidB,
              accountId := account_id, folderId := f2.id,
              threadId := none, headerMessageId := some b, remoteUID := uidB,
              subject := sub2, date := t2, draft := draft2, unread := !seen2,
              starred := flag2, from_contacts := fc2, to_contacts := "[]",
              cc_contacts := "[]", bcc_contacts := "[]", reply_to_contacts := "[]",
              snippet := "", is_plaintext := false } f2)
          ⟨T, account_id, b⟩)
        { id := account_id ++ ":" ++ f2.id ++ ":" ++ toString uidB,
          accountId := account_id, folderId := f2.id,
          threadId := some T, headerMessageId := some b, remoteUID := uidB,
          subject := sub2, date := t2, draft := draft2, unread := !seen2,
          starred := flag2, from_contacts := fc2, to_contacts := "[]",
          cc_contacts := "[]", bcc_contacts := "[]", reply_to_contacts := "[]",
          snippet := "", is_plaintext := false } now).thread = [thU] := by
      have : ∀ (X : Db) (m : Message) (n : Int), (upsert_message X m n).thread = X.thread := by
        intro X m n
        unfold upsert_message
        split <;> rfl
      rw [this, htrThr, hupdThr, hthUeq]
    refine ⟨thU, ?_, ?_, ?_⟩
    · unfold get_thread_by_id
      rw [hFthr]
      rw [List.find?_cons_of_pos _ (by simp [hthUid])]
    · rw [hthUunread, hthr'unread, hth1unread]
      cases seen2 <;> simp
    · rw [hthUstar, hthr'star, hth1star]

/-- `insert_thread_reference` appends when the reference triple is new. -/
theorem insert_thread_reference_append (X : Db) (tr : ThreadReferenceRow)
    (h : X.thread_reference.any (fun q =>
        q.threadId == tr.threadId && q.accountId == tr.accountId &&
        q.headerMessageId == tr.headerMessageId) = false) :
    insert_thread_reference X tr =
      { X with thread_reference := X.thread_reference ++ [tr] } := by
  unfold insert_thread_reference
  rw [h]
  rfl

/-- Joining property of the threader, second order: the reply M2 arrives
before the original message M1, possibly in another folder. -/
theorem threading_join_second_order
    (files_dir account_id a b T sub1 sub2 fc1 fc2 : String)
    (f1 f2 : FolderRow) (seen1 flag1 draft1 seen2 flag2 draft2 : Bool)
    (t1 t2 now : Int) (uidA uidB : Nat)
    (hab : a ≠ b)
    (hsplit : (rustSplitWhitespace a.toList).map String.mk = [a])
    (hid12 : account_id ++ ":" ++ f1.id ++ ":" ++ toString uidA ≠
             account_id ++ ":" ++ f2.id ++ ":" ++ toString uidB) :
    ∃ dbF genF,
      ingestTwo files_dir account_id
        f2 ⟨some uidB, seen2, flag2, draft2,
            some ⟨some sub2, some b, some a, fc2, "[]", "[]", "[]", "[]"⟩,
            some t2, none⟩
        f1 ⟨some uidA, seen1, flag1, draft1,
            some ⟨some sub1, some a, none, fc1, "[]", "[]", "[]", "[]"⟩,
            some t1, none⟩
        now ⟨[T]⟩ = .ok (dbF, genF) ∧
      (∀ m ∈ dbF.message, m.threadId = some T) ∧
      (∃ thr, get_thread_by_id dbF T = some thr ∧
        thr.unread = (if seen1 then 0 else 1) + (if seen2 then 0 else 1) ∧
        thr.starred = (if flag1 then 1 else 0) + (if flag2 then 1 else 0)) := by
  have hbaB : (b == a) = false := beq_eq_false_iff_ne.mpr (Ne.symm hab)
  -- The own-id reference of M2 does not absorb the reply reference to a.
  have hnodup : (insert_thread_reference
      (upsert_thread Db.empty
        { id := T, accountId := account_id,
          data := some (threadDataJson fc2 f2.id),
          subject := sub2,
          snippet := get_snippet_from_message
            { id := account_id ++ ":" ++ f2.id ++ ":" ++ toString uidB,
              accountId := account_id, folderId := f2.id,
              threadId := none, headerMessageId := some b, remoteUID := uidB,
              subject := sub2, date := t2, draft := draft2, unread := !seen2,
              starred := flag2, from_contacts := fc2, to_contacts := "[]",
              cc_contacts := "[]", bcc_contacts := "[]", reply_to_contacts := "[]",
              snippet := "", is_plaintext := false },
          unread := if !seen2 then 1 else 0,
          starred := if flag2 then 1 else 0,
          firstMessageTimestamp := t2, lastMessageTimestamp := t2 })
      ⟨T, account_id, b⟩).thread_reference.any
      (fun q => q.threadId == T && q.accountId == account_id &&
        q.headerMessageId == a) = false := by
    simp [insert_thread_reference, upsert_thread, Db.empty, hbaB]
  -- Step 1: the reply M2 creates thread T and registers both b and a.
  obtain ⟨db1, hB1, ⟨row2, hrow2eq, hr2acc, hr2fid, hr2uid, hr2id, hr2tid⟩,
          ⟨th2, hth2eq, hth2id, hth2unread, hth2star⟩, htrB⟩ :
      ∃ db1, process_message files_dir account_id Db.empty f2
          ⟨some uidB, seen2, flag2, draft2,
           some ⟨some sub2, some b, some a, fc2, "[]", "[]", "[]", "[]"⟩,
           some t2, none⟩ now ⟨[T]⟩ = .ok (db1, .New, ⟨[]⟩) ∧
        (∃ row2, db1.message = [row2] ∧ row2.accountId = account_id ∧
          row2.folderId = f2.id ∧ row2.remoteUID = uidB ∧
          row2.id = account_id ++ ":" ++ f2.id ++ ":" ++ toString uidB ∧
          row2.threadId = some T) ∧
        (∃ th2, db1.thread = [th2] ∧ th2.id = T ∧
          th2.unread = (if seen2 then 0 else 1) ∧
          th2.starred = (if flag2 then 1 else 0)) ∧
        db1.thread_reference = [⟨T, account_id, b⟩, ⟨T, account_id, a⟩] := by
    rw [process_message_new_eq files_dir account_id Db.empty f2 _ now ⟨[T]⟩ uidB
      ⟨some sub2, some b, some a, fc2, "[]", "[]", "[]", "[]"⟩ t2 rfl rfl rfl rfl rfl]
    dsimp only
    simp only [Option.map_some', Option.getD_some, decode_header]
    rw [show extract_in_reply_to_ids
        ⟨some sub2, some b, some a, fc2, "[]", "[]", "[]", "[]"⟩ = [a] from hsplit]
    rw [find_or_create_thread_create_eq account_id Db.empty _ f2 [a] ⟨[T]⟩ b rfl rfl
      (findThreadViaReplies_empty account_id [a])]
    dsimp only [IdGen.draw]
    rw [List.foldl_cons, List.foldl_nil]
    rw [insert_thread_reference_append _ (⟨T, account_id, a⟩ : ThreadReferenceRow) hnodup]
    refine ⟨_, rfl, ⟨_, rfl, rfl, rfl, rfl, rfl, rfl⟩, ⟨_, rfl, rfl, ?_, ?_⟩, rfl⟩
    · cases seen2 <;> rfl
    · cases flag2 <;> rfl
  -- boolean disequality on the storage key, reversed order
  have hkeyne : ((f2.id == f1.id) && (uidB == uidA)) = false := by
    by_cases hf : f2.id = f1.id
    · by_cases hu : uidB = uidA
      · exact absurd (by rw [hf, hu]) hid12
      · simp [hu]
    · simp [hf]
  -- Step 2: M1 joins thread T through its own registered Message-ID.
  have hmiss1 : get_message_by_uid db1 account_id f1.id uidA = none := by
    unfold get_message_by_uid
    rw [hrow2eq]
    have hpred : (row2.accountId == account_id && row2.folderId == f1.id &&
        row2.remoteUID == uidA) = false := by
      rw [hr2acc, hr2fid, hr2uid]
      simp only [beq_self_eq_true, Bool.true_and]
      exact hkeyne
    rw [List.find?_cons_of_neg _ (by simp [hpred])]
    rfl
  have hfa1 : find_thread_by_message_id db1 account_id a = some T := by
    unfold find_thread_by_message_id
    rw [htrB]
    rw [List.find?_cons_of_neg _ (by simp [hbaB])]
    rw [List.find?_cons_of_pos _ (by simp)]
    rfl
  have hgetT2 : get_thread_by_id db1 T = some th2 := by
    unfold get_thread_by_id
    rw [hth2eq]
    rw [List.find?_cons_of_pos _ (by simp [hth2id])]
  obtain ⟨thr', hupdEq, hthr'id, hthr'acc, hthr'unread, hthr'star⟩ :=
    update_thread_with_message_eq account_id db1 T
      { id := account_id ++ ":" ++ f1.id ++ ":" ++ toString uidA,
        accountId := account_id, folderId := f1.id,
        threadId := none, headerMessageId := some a, remoteUID := uidA,
        subject := sub1, date := t1, draft := draft1, unread := !seen1,
        starred := flag1, from_contacts := fc1, to_contacts := "[]",
        cc_contacts := "[]", bcc_contacts := "[]", reply_to_contacts := "[]",
        snippet := "", is_plaintext := false } f1 th2 hgetT2
  have hB2 : process_message files_dir account_id db1 f1
      ⟨some uidA, seen1, flag1, draft1,
       some ⟨some sub1, some a, none, fc1, "[]", "[]", "[]", "[]"⟩,
       some t1, none⟩ now ⟨[]⟩ =
      .ok (upsert_message
            (update_thread_with_message account_id db1 T
              { id := account_id ++ ":" ++ f1.id ++ ":" ++ toString uidA,
                accountId := account_id, folderId := f1.id,
                threadId := none, headerMessageId := some a, remoteUID := uidA,
                subject := sub1, date := t1, draft := draft1, unread := !seen1,
                starred := flag1, from_contacts := fc1, to_contacts := "[]",
                cc_contacts := "[]", bcc_contacts := "[]",
                reply_to_contacts := "[]",
                snippet := "", is_plaintext := false } f1)
            { id := account_id ++ ":" ++ f1.id ++ ":" ++ toString uidA,
              accountId := account_id, folderId := f1.id,
              threadId := some T, headerMessageId := some a, remoteUID := uidA,
              subject := sub1, date := t1, draft := draft1, unread := !seen1,
              starred := flag1, from_contacts := fc1, to_contacts := "[]",
              cc_contacts := "[]", bcc_contacts := "[]", reply_to_contacts := "[]",
              snippet := "", is_plaintext := false } now,
          .New, ⟨[]⟩) := by
    rw [process_message_new_eq files_dir account_id db1 f1 _ now ⟨[]⟩ uidA
      ⟨some sub1, some a, none, fc1, "[]", "[]", "[]", "[]"⟩ t1 rfl hmiss1 rfl rfl rfl]
    dsimp only
    simp only [Option.map_some', Option.getD_some, decode_header]
    rw [find_or_create_thread_own_eq account_id db1 _ f1 _ ⟨[]⟩ a T rfl hfa1]
  -- Projections of the assembled database.
  have hbeqT2 : (th2.id == thr'.id) = true := by
    rw [hthr'id, hth2id]
    exact beq_self_eq_true T
  have hupdMsg : (update_thread_with_message account_id db1 T
      { id := account_id ++ ":" ++ f1.id ++ ":" ++ toString uidA,
        accountId := account_id, folderId := f1.id,
        threadId := none, headerMessageId := some a, remoteUID := uidA,
        subject := sub1, date := t1, draft := draft1, unread := !seen1,
        starred := flag1, from_contacts := fc1, to_contacts := "[]",
        cc_contacts := "[]", bcc_contacts := "[]", reply_to_contacts := "[]",
        snippet := "", is_plaintext := false } f1).message = db1.message := by
    rw [hupdEq]
    split
    · show (insert_thread_folder (upsert_thread db1 thr') _).message = _
      unfold insert_thread_folder upsert_thread
      split <;> rfl
    · unfold upsert_thread
      split <;> rfl
  have hupdThr : (update_thread_with_message account_id db1 T
      { id := account_id ++ ":" ++ f1.id ++ ":" ++ toString uidA,
        accountId := account_id, folderId := f1.id,
        threadId := none, headerMessageId := some a, remoteUID := uidA,
        subject := sub1, date := t1, draft := draft1, unread := !seen1,
        starred := flag1, from_contacts := fc1, to_contacts := "[]",
        cc_contacts := "[]", bcc_contacts := "[]", reply_to_contacts := "[]",
        snippet := "", is_plaintext := false } f1).thread =
      (upsert_thread db1 thr').thread := by
    rw [hupdEq]
    split
    · show (insert_thread_folder (upsert_thread db1 thr') _).thread = _
      unfold insert_thread_folder
      rfl
    · rfl
  obtain ⟨thU, hthUeq, hthUid, hthUunread, hthUstar⟩ :
      ∃ thU, (upsert_thread db1 thr').thread = [thU] ∧ thU.id = T ∧
        thU.unread = thr'.unread ∧ thU.starred = thr'.starred := by
    have hany : db1.thread.any (fun r => r.id == thr'.id) = true := by
      rw [hth2eq]
      simp [hbeqT2]
    refine ⟨{ th2 with
        data := thr'.data, subject := thr'.subject,
        snippet := thr'.snippet, unread := thr'.unread,
        starred := thr'.starred,
        firstMessageTimestamp := thr'.firstMessageTimestamp,
        lastMessageTimestamp := thr'.lastMessageTimestamp },
      ?_, hth2id, rfl, rfl⟩
    unfold upsert_thread
    rw [hany]
    simp only [if_true]
    rw [hth2eq]
    simp [hbeqT2]
    intro hne
    exact absurd hthr'id.symm hne
  refine ⟨upsert_message
      (update_thread_with_message account_id db1 T
        { id := account_id ++ ":" ++ f1.id ++ ":" ++ toString uidA,
          accountId := account_id, folderId := f1.id,
          threadId := none, headerMessageId := some a, remoteUID := uidA,
          subject := sub1, date := t1, draft := draft1, unread := !seen1,
          starred := flag1, from_contacts := fc1, to_contacts := "[]",
          cc_contacts := "[]", bcc_contacts := "[]", reply_to_contacts := "[]",
          snippet := "", is_plaintext := false } f1)
      { id := account_id ++ ":" ++ f1.id ++ ":" ++ toString uidA,
        accountId := account_id, folderId := f1.id,
        threadId := some T, headerMessageId := some a, remoteUID := uidA,
        subject := sub1, date := t1, draft := draft1, unread := !seen1,
        starred := flag1, from_contacts := fc1, to_contacts := "[]",
        cc_contacts := "[]", bcc_contacts := "[]", reply_to_contacts := "[]",
        snippet := "", is_plaintext := false } now,
    ⟨[]⟩, ?_, ?_, ?_⟩
  · show ingestTwo _ _ _ _ _ _ _ _ = _
    unfold ingestTwo
    rw [hB1]
    dsimp only
    rw [hB2]
  · -- every stored message carries thread id T
    intro m hm
    have hFmsg : (upsert_message
        (update_thread_with_message account_id db1 T
          { id := account_id ++ ":" ++ f1.id ++ ":" ++ toString uidA,
            accountId := account_id, folderId := f1.id,
            threadId := none, headerMessageId := some a, remoteUID := uidA,
            subject := sub1, date := t1, draft := draft1, unread := !seen1,
            starred := flag1, from_contacts := fc1, to_contacts := "[]",
            cc_contacts := "[]", bcc_contacts := "[]", reply_to_contacts := "[]",
            snippet := "", is_plaintext := false } f1)
        { id := account_id ++ ":" ++ f1.id ++ ":" ++ toString uidA,
          accountId := account_id, folderId := f1.id,
          threadId := some T, headerMessageId := some a, remoteUID := uidA,
          subject := sub1, date := t1, draft := draft1, unread := !seen1,
          starred := flag1, from_contacts := fc1, to_contacts := "[]",
          cc_contacts := "[]", bcc_contacts := "[]", reply_to_contacts := "[]",
          snippet := "", is_plaintext := false } now).message =
        [row2,
         { id := account_id ++ ":" ++ f1.id ++ ":" ++ toString uidA,
           accountId := account_id,
           data := some (Message.get_data
             { id := account_id ++ ":" ++ f1.id ++ ":" ++ toString uidA,
               accountId := account_id, folderId := f1.id,
               threadId := some T, headerMessageId := some a, remoteUID := uidA,
               subject := sub1, date := t1, draft := draft1, unread := !seen1,
               starred := flag1, from_contacts := fc1, to_contacts := "[]",
               cc_contacts := "[]", bcc_contacts := "[]", reply_to_contacts := "[]",
               snippet := "", is_plaintext := false } now),
           folderId := f1.id, threadId := some T, headerMessageId := some a,
           subject := sub1, draft := draft1, unread := !seen1, starred := flag1,
           date := t1, remoteUID := uidA }] := by
      unfold upsert_message
      rw [hupdMsg, hrow2eq]
      rw [show ([row2].any (fun r =>
          r.id == account_id ++ ":" ++ f1.id ++ ":" ++ toString uidA)) = false by
        simp only [List.any_cons, List.any_nil, Bool.or_false]
        rw [hr2id]
        exact beq_eq_false_iff_ne.mpr (Ne.symm hid12)]
      rfl
    rw [hFmsg] at hm
    rcases List.mem_cons.mp hm with rfl | hm2
    · exact hr2tid
    · rcases List.mem_cons.mp hm2 with rfl | hm3
      · rfl
      · cases hm3
  · -- the thread row and its counts
    have hFthr : (upsert_message
        (update_thread_with_message account_id db1 T
          { id := account_id ++ ":" ++ f1.id ++ ":" ++ toString uidA,
            accountId := account_id, folderId := f1.id,
            threadId := none, headerMessageId := some a, remoteUID := uidA,
            subject := sub1, date := t1, draft := draft1, unread := !seen1,
            starred := flag1, from_contacts := fc1, to_contacts := "[]",
            cc_contacts := "[]", bcc_contacts := "[]", reply_to_contacts := "[]",
            snippet := "", is_plaintext := false } f1)
        { id := account_id ++ ":" ++ f1.id ++ ":" ++ toString uidA,
          accountId := account_id, folderId := f1.id,
          threadId := some T, headerMessageId := some a, remoteUID := uidA,
          subject := sub1, date := t1, draft := draft1, unread := !seen1,
          starred := flag1, from_contacts := fc1, to_contacts := "[]",
          cc_contacts := "[]", bcc_contacts := "[]", reply_to_contacts := "[]",
          snippet := "", is_plaintext := false } now).thread = [thU] := by
      have hum : ∀ (X : Db) (m : Message) (n : Int),
          (upsert_message X m n).thread = X.thread := by
        intro X m n
        unfold upsert_message
        split <;> rfl
      rw [hum, hupdThr, hthUeq]
    refine ⟨thU, ?_, ?_, ?_⟩
    · unfold get_thread_by_id
      rw [hFthr]
      rw [List.find?_cons_of_pos _ (by simp [hthUid])]
    · rw [hthUunread, hthr'unread, hth2unread]
      cases seen1 <;> cases seen2 <;> simp
    · rw [hthUstar, hthr'star, hth2star]
      cases flag1 <;> cases flag2 <;> simp

/-- C4: for messages M1 (Message-ID a) and M2 (Message-ID b, In-Reply-To a)
with distinct header ids, distinct (folder, uid) storage keys of the same
account, and a single-token In-Reply-To header, ingesting them through
`process_message` in either order — M1 then M2, or M2 then M1, possibly
into different folders — stores both messages with the same thread id T,
and thread T's unread and starred counts equal the sums of the two
messages' unread and starred flags at ingest time. -/
theorem threading_join
    (files_dir account_id a b T sub1 sub2 fc1 fc2 : String)
    (f1 f2 : FolderRow) (seen1 flag1 draft1 seen2 flag2 draft2 : Bool)
    (t1 t2 now : Int) (uidA uidB : Nat)
    (hab : a ≠ b)
    (hsplit : (rustSplitWhitespace a.toList).map String.mk = [a])
    (hid12 : account_id ++ ":" ++ f1.id ++ ":" ++ toString uidA ≠
             account_id ++ ":" ++ f2.id ++ ":" ++ toString uidB) :
    (∃ dbF genF,
      ingestTwo files_dir account_id
        f1 ⟨some uidA, seen1, flag1, draft1,
            some ⟨some sub1, some a, none, fc1, "[]", "[]", "[]", "[]"⟩,
            some t1, none⟩
        f2 ⟨some uidB, seen2, flag2, draft2,
            some ⟨some sub2, some b, some a, fc2, "[]", "[]", "[]", "[]"⟩,
            some t2, none⟩
        now ⟨[T]⟩ = .ok (dbF, genF) ∧
      (∀ m ∈ dbF.message, m.threadId = some T) ∧
      (∃ thr, get_thread_by_id dbF T = some thr ∧
        thr.unread = (if seen1 then 0 else 1) + (if seen2 then 0 else 1) ∧
        thr.starred = (if flag1 then 1 else 0) + (if flag2 then 1 else 0))) ∧
    (∃ dbF genF,
      ingestTwo files_dir account_id
        f2 ⟨some uidB, seen2, flag2, draft2,
            some ⟨some sub2, some b, some a, fc2, "[]", "[]", "[]", "[]"⟩,
            some t2, none⟩
        f1 ⟨some uidA, seen1, flag1, draft1,
            some ⟨some sub1, some a, none, fc1, "[]", "[]", "[]", "[]"⟩,
            some t1, none⟩
        now ⟨[T]⟩ = .ok (dbF, genF) ∧
      (∀ m ∈ dbF.message, m.threadId = some T) ∧
      (∃ thr, get_thread_by_id dbF T = some thr ∧
        thr.unread = (if seen1 then 0 else 1) + (if seen2 then 0 else 1) ∧
        thr.starred = (if flag1 then 1 else 0) + (if flag2 then 1 else 0))) :=
  ⟨threading_join_first_order files_dir account_id a b T sub1 sub2 fc1 fc2
     f1 f2 seen1 flag1 draft1 seen2 flag2 draft2 t1 t2 now uidA uidB
     hab hsplit hid12,
   threading_join_second_order files_dir account_id a b T sub1 sub2 fc1 fc2
     f1 f2 seen1 flag1 draft1 seen2 flag2 draft2 t1 t2 now uidA uidB
     hab hsplit hid12⟩

/-- Concrete folders for the threading-join witness. -/
def c4f1 : FolderRow := ⟨"f1", "acct", none, "INBOX", "inbox", none, none, none⟩

def c4f2 : FolderRow := ⟨"f2", "acct", none, "Archive", "archive", none, none, none⟩

theorem threading_join_witness :
    (("a1" : String) ≠ "b1") ∧
    ((rustSplitWhitespace ("a1" : String).toList).map String.mk = ["a1"]) ∧
    ("acct" ++ ":" ++ c4f1.id ++ ":" ++ toString (1 : Nat) ≠
     "acct" ++ ":" ++ c4f2.id ++ ":" ++ toString (2 : Nat)) ∧
    ((∃ dbF genF,
      ingestTwo "files" "acct"
        c4f1 ⟨some 1, true, false, false,
              some ⟨some "s1", some "a1", none, "[]", "[]", "[]", "[]", "[]"⟩,
              some 10, none⟩
        c4f2 ⟨some 2, false, true, false,
              some ⟨some "s2", some "b1", some "a1", "[]", "[]", "[]", "[]", "[]"⟩,
              some 20, none⟩
        0 ⟨["T"]⟩ = .ok (dbF, genF) ∧
      (∀ m ∈ dbF.message, m.threadId = some "T") ∧
      (∃ thr, get_thread_by_id dbF "T" = some thr ∧
        thr.unread = (if true then 0 else 1) + (if false then 0 else 1) ∧
        thr.starred = (if false then 1 else 0) + (if true then 1 else 0))) ∧
    (∃ dbF genF,
      ingestTwo "files" "acct"
        c4f2 ⟨some 2, false, true, false,
              some ⟨some "s2", some "b1", some "a1", "[]", "[]", "[]", "[]", "[]"⟩,
              some 20, none⟩
        c4f1 ⟨some 1, true, false, false,
              some ⟨some "s1", some "a1", none, "[]", "[]", "[]", "[]", "[]"⟩,
              some 10, none⟩
        0 ⟨["T"]⟩ = .ok (dbF, genF) ∧
      (∀ m ∈ dbF.message, m.threadId = some "T") ∧
      (∃ thr, get_thread_by_id dbF "T" = some thr ∧
        thr.unread = (if true then 0 else 1) + (if false then 0 else 1) ∧
        thr.starred = (if false then 1 else 0) + (if true then 1 else 0)))) :=
  ⟨by decide, by decide, by decide,
   threading_join "files" "acct" "a1" "b1" "T" "s1" "s2" "[]" "[]" c4f1 c4f2
     true false false false true false 10 20 0 1 2
     (by decide) (by decide) (by decide)⟩

/-! ## C9: move_to_trash -/

/-- A resolved `MessageActionInfo` carries the id it was looked up by. -/
theorem get_message_info_by_id_id (db : Db) (i : String)
    (info : MessageActionInfo)
    (h : get_message_info_by_id db i = some info) : info.id = i := by
  unfold get_message_info_by_id at h
  cases hf : db.message.find? (fun m => m.id == i) with
  | none => rw [hf] at h; cases h
  | some m =>
    rw [hf] at h
    dsimp only at h
    have hm := List.find?_some hf
    cases hg : db.folder.find? (fun f => f.id == m.folderId) with
    | none => rw [hg] at h; cases h
    | some f =>
      rw [hg] at h
      dsimp only at h
      cases ht : m.threadId with
      | none => rw [ht] at h; cases h
      | some tidm =>
        rw [ht] at h
        dsimp only at h
        cases h
        exact eq_of_beq hm

/-- C9: with one message already in the account's trash folder and one
message elsewhere, `move_to_trash` reports the in-trash message as a
success issuing no IMAP command at all for a pure in-trash input; for the
other message it selects the source folder, issues the `moveCmdsFor`
commands and logs out, recording success and deleting the local message
row together with its body and file rows exactly when the server-side
move succeeded; and `moveCmdsFor` is UID MOVE under the MOVE capability
and UID COPY, UID STORE +FLAGS (Deleted), EXPUNGE otherwise. -/
theorem move_to_trash_spec (env : ImapEnv) (accounts : List String) (db : Db)
    (A idT idM tid PT : String) (infoT infoM : MessageActionInfo)
    (r : MessageRow)
    (h1 : get_message_info_by_id db idT = some infoT)
    (h2 : get_message_info_by_id db idM = some infoM)
    (h3 : infoT.account_id = A) (h4 : infoM.account_id = A)
    (h5 : get_trash_folder_for_account db A = some (tid, PT))
    (h6 : infoT.folder_path = PT)
    (h7 : infoM.folder_path ≠ PT)
    (h8 : accounts.contains A = true)
    (h9 : env.connectErr A = none)
    (h10 : env.cmdOk (ImapCmd.select infoM.folder_path) = true)
    (hr : db.message.find? (fun m => m.accountId == infoM.account_id &&
            m.folderId == infoM.folder_id && m.remoteUID == infoM.remote_uid) =
          some r) :
    move_to_trash env accounts db [idT] = (db, ⟨[idT], []⟩, []) ∧
    move_to_trash env accounts db [idT, idM] =
      ((if (moveCmdsFor env (env.hasMove A) infoM.remote_uid PT).2 then
         { db with
           message_body := db.message_body.filter (fun b0 => !(b0.id == r.id)),
           file := db.file.filter (fun f0 => !(f0.messageId == r.id)),
           message := db.message.filter (fun m0 => !(m0.id == r.id)) }
        else db),
       (if (moveCmdsFor env (env.hasMove A) infoM.remote_uid PT).2 then
         (⟨[idT, idM], []⟩ : ActionResult)
        else ⟨[idT], [(idM, "IMAP move failed")]⟩),
       ImapCmd.select infoM.folder_path ::
         ((moveCmdsFor env (env.hasMove A) infoM.remote_uid PT).1 ++
          [ImapCmd.logout])) ∧
    (env.hasMove A = true →
      moveCmdsFor env (env.hasMove A) infoM.remote_uid PT =
        ([ImapCmd.uidMove infoM.remote_uid PT],
         env.cmdOk (ImapCmd.uidMove infoM.remote_uid PT))) ∧
    (env.hasMove A = false →
      moveCmdsFor env (env.hasMove A) infoM.remote_uid PT =
        (if env.cmdOk (ImapCmd.uidCopy infoM.remote_uid PT) then
          if env.cmdOk (ImapCmd.uidStore infoM.remote_uid "+FLAGS (\\Deleted)") then
            ([ImapCmd.uidCopy infoM.remote_uid PT,
              ImapCmd.uidStore infoM.remote_uid "+FLAGS (\\Deleted)",
              ImapCmd.expunge], env.cmdOk ImapCmd.expunge)
          else ([ImapCmd.uidCopy infoM.remote_uid PT,
                 ImapCmd.uidStore infoM.remote_uid "+FLAGS (\\Deleted)"], false)
        else ([ImapCmd.uidCopy infoM.remote_uid PT], false))) := by
  have hTid : infoT.id = idT := get_message_info_by_id_id db idT infoT h1
  have hMid : infoM.id = idM := get_message_info_by_id_id db idM infoM h2
  have h6B : (infoT.folder_path == PT) = true := by
    rw [h6]
    exact beq_self_eq_true PT
  have h7B : (infoM.folder_path == PT) = false := beq_eq_false_iff_ne.mpr h7
  have hlk : lookupAssoc [(A, (tid, PT))] A = some (tid, PT) := by
    simp [lookupAssoc]
  have hres1 : resolveTrashInputs db [idT] = ([(A, [infoT])], [(A, (tid, PT))]) := by
    unfold resolveTrashInputs
    simp only [List.foldl_cons, List.foldl_nil]
    rw [h1]
    dsimp only
    rw [h3, h5]
    simp [lookupAssoc, assocPush]
  have hres2 : resolveTrashInputs db [idT, idM] =
      ([(A, [infoT, infoM])], [(A, (tid, PT))]) := by
    unfold resolveTrashInputs
    simp only [List.foldl_cons, List.foldl_nil]
    rw [h1]
    dsimp only
    rw [h3, h5]
    rw [h2]
    dsimp only
    rw [h4]
    simp [lookupAssoc, assocPush]
  refine ⟨?_, ?_, ?_, ?_⟩
  · -- pure in-trash input: success, no commands, untouched database
    unfold move_to_trash
    rw [hres1]
    simp only [List.isEmpty_cons, Bool.false_eq_true, if_false,
      List.foldl_cons, List.foldl_nil]
    unfold trashAccountStep
    simp only [h8, Bool.not_true, Bool.false_eq_true, if_false, hlk]
    unfold groupNonTrash
    simp only [List.foldl_cons, List.foldl_nil, h6B, if_true,
      List.isEmpty_nil, hTid]
    rfl
  · -- mixed input: one immediate success, one server-side move
    unfold move_to_trash
    rw [hres2]
    simp only [List.isEmpty_cons, Bool.false_eq_true, if_false,
      List.foldl_cons, List.foldl_nil]
    unfold trashAccountStep
    simp only [h8, Bool.not_true, Bool.false_eq_true, if_false, hlk]
    unfold groupNonTrash
    simp only [List.foldl_cons, List.foldl_nil, h6B, if_true, h7B,
      Bool.false_eq_true, if_false]
    simp only [assocPush, List.any_nil, Bool.false_eq_true, if_false,
      List.nil_append, List.isEmpty_cons, h9]
    unfold trashFolderLoop
    simp only [h10, if_true, List.nil_append]
    unfold trashMsgLoop
    cases hmc : moveCmdsFor env (env.hasMove A) infoM.remote_uid PT with
    | mk cmds ok =>
      dsimp only
      cases ok with
      | true =>
        unfold trashMsgLoop trashFolderLoop
        unfold delete_message_by_uid
        rw [hr]
        simp [ActionResult.add_success, ActionResult.new, hTid, hMid]
      | false =>
        unfold trashMsgLoop trashFolderLoop
        simp [ActionResult.add_failure, ActionResult.add_success,
          ActionResult.new, hTid, hMid]
  · -- MOVE capability: a single UID MOVE
    intro hmv
    rw [hmv]
    rfl
  · -- fallback: UID COPY, UID STORE, EXPUNGE
    intro hmv
    rw [hmv]
    rfl

/-- Concrete environment and database for the move-to-trash witness. -/
def c9env : ImapEnv := ⟨fun _ => none, fun _ => true, fun _ => true⟩

def c9mt : MessageRow :=
  ⟨"mt", "acct9", none, "ft", some "th1", some "hmt", "s", false, false, false, 0, 5⟩

def c9mm : MessageRow :=
  ⟨"mm", "acct9", none, "fs", some "th1", some "hmm", "s", false, false, false, 0, 7⟩

def c9ftrash : FolderRow := ⟨"ft", "acct9", none, "Trash", "trash", none, none, none⟩

def c9fsrc : FolderRow := ⟨"fs", "acct9", none, "INBOX", "inbox", none, none, none⟩

def c9db : Db := ⟨[c9mt, c9mm], [], [], [], [], [c9ftrash, c9fsrc], []⟩

theorem move_to_trash_spec_witness :
    get_message_info_by_id c9db "mt" =
      some ⟨"mt", "acct9", "ft", "Trash", 5, "th1"⟩ ∧
    get_message_info_by_id c9db "mm" =
      some ⟨"mm", "acct9", "fs", "INBOX", 7, "th1"⟩ ∧
    (⟨"mt", "acct9", "ft", "Trash", 5, "th1"⟩ : MessageActionInfo).account_id =
      "acct9" ∧
    (⟨"mm", "acct9", "fs", "INBOX", 7, "th1"⟩ : MessageActionInfo).account_id =
      "acct9" ∧
    get_trash_folder_for_account c9db "acct9" = some ("ft", "Trash") ∧
    (⟨"mt", "acct9", "ft", "Trash", 5, "th1"⟩ : MessageActionInfo).folder_path =
      "Trash" ∧
    (("INBOX" : String) ≠ "Trash") ∧
    (["acct9"].contains "acct9" = true) ∧
    c9env.connectErr "acct9" = none ∧
    c9env.cmdOk (ImapCmd.select "INBOX") = true ∧
    c9db.message.find? (fun m => m.accountId == "acct9" &&
      m.folderId == "fs" && m.remoteUID == 7) = some c9mm ∧
    (move_to_trash c9env ["acct9"] c9db ["mt"] = (c9db, ⟨["mt"], []⟩, []) ∧
     move_to_trash c9env ["acct9"] c9db ["mt", "mm"] =
       ((if (moveCmdsFor c9env (c9env.hasMove "acct9") 7 "Trash").2 then
          { c9db with
            message_body := c9db.message_body.filter (fun b0 => !(b0.id == c9mm.id)),
            file := c9db.file.filter (fun f0 => !(f0.messageId == c9mm.id)),
            message := c9db.message.filter (fun m0 => !(m0.id == c9mm.id)) }
         else c9db),
        (if (moveCmdsFor c9env (c9env.hasMove "acct9") 7 "Trash").2 then
          (⟨["mt", "mm"], []⟩ : ActionResult)
         else ⟨["mt"], [("mm", "IMAP move failed")]⟩),
        ImapCmd.select "INBOX" ::
          ((moveCmdsFor c9env (c9env.hasMove "acct9") 7 "Trash").1 ++
           [ImapCmd.logout])) ∧
     (c9env.hasMove "acct9" = true →
       moveCmdsFor c9env (c9env.hasMove "acct9") 7 "Trash" =
         ([ImapCmd.uidMove 7 "Trash"],
          c9env.cmdOk (ImapCmd.uidMove 7 "Trash"))) ∧
     (c9env.hasMove "acct9" = false →
       moveCmdsFor c9env (c9env.hasMove "acct9") 7 "Trash" =
         (if c9env.cmdOk (ImapCmd.uidCopy 7 "Trash") then
           if c9env.cmdOk (ImapCmd.uidStore 7 "+FLAGS (\\Deleted)") then
             ([ImapCmd.uidCopy 7 "Trash",
               ImapCmd.uidStore 7 "+FLAGS (\\Deleted)",
               ImapCmd.expunge], c9env.cmdOk ImapCmd.expunge)
           else ([ImapCmd.uidCopy 7 "Trash",
                  ImapCmd.uidStore 7 "+FLAGS (\\Deleted)"], false)
         else ([ImapCmd.uidCopy 7 "Trash"], false)))) :=
  ⟨by decide, by decide, by decide, by decide, by decide, by decide, by decide,
   by decide, by decide, by decide, by decide,
   move_to_trash_spec c9env ["acct9"] c9db "acct9" "mt" "mm" "ft" "Trash"
     ⟨"mt", "acct9", "ft", "Trash", 5, "th1"⟩
     ⟨"mm", "acct9", "fs", "INBOX", 7, "th1"⟩ c9mm
     (by decide) (by decide) (by decide) (by decide) (by decide) (by decide)
     (by decide) (by decide) (by decide) (by decide) (by decide)⟩

end Raven
